import Mathlib

/-!
Verification of the VRTemplate OpenXR application core.

Shallow embedding of:
- `MessageQueue.h` (lock-free MPSC ring buffer), given sequential semantics;
- `VrApp.cpp` (main loop, session state handling, frame loop);
- `OpenXR.cpp` (ordered initialization sequence and teardown);
- `Framebuffer.cpp` (Create / Acquire / SetCurrent / Resolve / Destroy);
- `VrController.cpp` (preferred-hand selection in `SyncHandPoses`).

External calls (OpenXR runtime, EGL, GL driver) are modelled by explicit
environment records supplying each call's result; everything the program
itself computes is translated directly from the C++ sources.
-/

/-! ## MessageQueue (`src/unnamed/part_004`, MessageQueue.h)

`Message` carries a type tag (EXIT_NEEDED = 0) and a payload.
`MessageQueue` is a ring buffer of power-of-two capacity `kCapacityPow2`;
`mBuffer` is modelled as a total function from slot index to `Message`
(the C++ `std::array` is value-initialized).  `mHead`/`mTail` are `size_t`
counters; we use `Nat`.  On all states reachable by the sequential
`Post`/`Poll` semantics below, `mHead ≤ mTail < 2 ^ 64` holds, so the
C++ wraparound subtraction `pos - mHead` agrees with truncated `Nat`
subtraction (on a full queue `Post` restores `mTail`, so `mTail` never
exceeds `mHead + kCapacityPow2` and no counter ever wraps). -/

structure Message where
  mType : Nat := 0
  mPayload : Nat := 0
deriving DecidableEq, Repr, Inhabited

structure MessageQueue where
  kCapacityPow2 : Nat
  mBuffer : Nat → Message
  mHead : Nat
  mTail : Nat

namespace MessageQueue

/-- `kMask = kCapacityPow2 - 1`. -/
def kMask (q : MessageQueue) : Nat := q.kCapacityPow2 - 1

/-- A default-constructed queue: value-initialized buffer, `mHead = mTail = 0`. -/
def empty (c : Nat) : MessageQueue :=
  { kCapacityPow2 := c, mBuffer := fun _ => {}, mHead := 0, mTail := 0 }

/-- `MessageQueue::Post`: reserve a slot with `mTail.fetch_add(1)`; if
`pos - mHead >= kCapacityPow2` the queue is full, so roll the reservation
back with `mTail.fetch_sub(1)` and drop the message; otherwise write the
message at `pos & kMask`. -/
def Post (q : MessageQueue) (msg : Message) : MessageQueue :=
  let pos := q.mTail
  let q1 : MessageQueue := { q with mTail := q.mTail + 1 }
  if q.kCapacityPow2 ≤ pos - q1.mHead then
    { q1 with mTail := q1.mTail - 1 }
  else
    { q1 with mBuffer := Function.update q1.mBuffer (pos &&& q.kMask) msg }

/-- `MessageQueue::Poll`: if `mHead == mTail` the queue is empty and
nothing is popped (`false`); otherwise return `mBuffer[mHead & kMask]`
and advance `mHead`.  The C++ out-parameter/`bool` pair is modelled as
`Option Message` together with the updated queue. -/
def Poll (q : MessageQueue) : Option Message × MessageQueue :=
  let head := q.mHead
  if head = q.mTail then
    (none, q)
  else
    (some (q.mBuffer (head &&& q.kMask)), { q with mHead := head + 1 })

/-- Post every message of a list in order. -/
def postAll (q : MessageQueue) (msgs : List Message) : MessageQueue :=
  msgs.foldl Post q

/-- Repeatedly poll, collecting the returned messages (fuelled). -/
def drainFuel : Nat → MessageQueue → List Message
  | 0, _ => []
  | n + 1, q =>
    match Poll q with
    | (none, _) => []
    | (some m, q1) => m :: drainFuel n q1

/-- All messages obtained by polling until the queue reports empty. -/
def drain (q : MessageQueue) : List Message :=
  drainFuel (q.mTail - q.mHead) q

end MessageQueue

namespace MessageQueue

/-- On a full queue (`kCapacityPow2 ≤ mTail - mHead`) a `Post` rolls its
reservation back and leaves the queue state unchanged. -/
lemma post_full_eq (q : MessageQueue) (m : Message)
    (h : q.kCapacityPow2 ≤ q.mTail - q.mHead) : Post q m = q := by
  simp only [Post]
  rw [if_pos h]
  simp

/-- On a non-full queue, `Post` advances the tail and writes the message
at slot `mTail & kMask`. -/
lemma post_not_full (q : MessageQueue) (m : Message)
    (h : q.mTail - q.mHead < q.kCapacityPow2) :
    Post q m = { q with
      mTail := q.mTail + 1,
      mBuffer := Function.update q.mBuffer
        (q.mTail &&& (q.kCapacityPow2 - 1)) m } := by
  simp only [Post, kMask]
  rw [if_neg (by omega)]

/-- State after posting `msgs` into a fresh queue of capacity `2 ^ e`:
the head stays at `0`, the tail is `min msgs.length (2 ^ e)`, and slot
`i &&& (2 ^ e - 1)` holds the `i`-th posted message for every retained
index `i`. -/
lemma postAll_spec (e : Nat) (msgs : List Message) :
    (postAll (empty (2 ^ e)) msgs).kCapacityPow2 = 2 ^ e ∧
    (postAll (empty (2 ^ e)) msgs).mHead = 0 ∧
    (postAll (empty (2 ^ e)) msgs).mTail = min msgs.length (2 ^ e) ∧
    ∀ i, i < min msgs.length (2 ^ e) →
      (postAll (empty (2 ^ e)) msgs).mBuffer (i &&& (2 ^ e - 1)) = msgs.getD i {} := by
  induction msgs using List.reverseRecOn with
  | nil =>
    refine ⟨rfl, rfl, by simp [postAll, empty], ?_⟩
    intro i hi
    simp at hi
  | append_singleton msgs m ih =>
    obtain ⟨hc, hh, ht, hb⟩ := ih
    have hstep : postAll (empty (2 ^ e)) (msgs ++ [m])
        = Post (postAll (empty (2 ^ e)) msgs) m := by
      simp [postAll, List.foldl_append]
    by_cases hlt : msgs.length < 2 ^ e
    · -- space available: the message is written at slot `mTail & kMask`
      have htail : (postAll (empty (2 ^ e)) msgs).mTail = msgs.length := by
        rw [ht, min_eq_left hlt.le]
      have hnotfull : (postAll (empty (2 ^ e)) msgs).mTail
          - (postAll (empty (2 ^ e)) msgs).mHead
          < (postAll (empty (2 ^ e)) msgs).kCapacityPow2 := by
        rw [hc, htail, hh]; omega
      rw [hstep, post_not_full _ _ hnotfull]
      refine ⟨hc, hh, ?_, ?_⟩
      · show (postAll (empty (2 ^ e)) msgs).mTail + 1
            = min (msgs ++ [m]).length (2 ^ e)
        rw [htail]
        simp only [List.length_append, List.length_singleton]
        rw [min_eq_left (by omega)]
      · intro i hi
        show Function.update (postAll (empty (2 ^ e)) msgs).mBuffer
            ((postAll (empty (2 ^ e)) msgs).mTail
              &&& ((postAll (empty (2 ^ e)) msgs).kCapacityPow2 - 1)) m
            (i &&& (2 ^ e - 1)) = (msgs ++ [m]).getD i {}
        rw [htail, hc]
        have hi1 : i < msgs.length + 1 := by
          have h2 := lt_of_lt_of_le hi (min_le_left _ _)
          simpa using h2
        by_cases heq : i = msgs.length
        · subst heq
          rw [Function.update_same]
          rw [List.getD_eq_getElem (msgs ++ [m]) {} (by simp)]
          simp
        · have hineq : i &&& (2 ^ e - 1) ≠ msgs.length &&& (2 ^ e - 1) := by
            rw [Nat.and_pow_two_sub_one_eq_mod, Nat.and_pow_two_sub_one_eq_mod,
                Nat.mod_eq_of_lt (by omega), Nat.mod_eq_of_lt hlt]
            exact heq
          rw [Function.update_noteq hineq]
          have hilt : i < msgs.length := by omega
          rw [List.getD_append msgs [m] {} i hilt]
          apply hb i
          rw [min_eq_left hlt.le]
          exact hilt
    · -- queue full: `Post` rolls back and drops the message
      have hge : 2 ^ e ≤ msgs.length := by omega
      have hfull : (postAll (empty (2 ^ e)) msgs).kCapacityPow2
          ≤ (postAll (empty (2 ^ e)) msgs).mTail
            - (postAll (empty (2 ^ e)) msgs).mHead := by
        rw [hc, ht, hh, min_eq_right hge]; omega
      rw [hstep, post_full_eq _ _ hfull]
      refine ⟨hc, hh, ?_, ?_⟩
      · rw [ht, min_eq_right hge, min_eq_right (by simp; omega)]
      · intro i hi
        have hi2 : i < 2 ^ e := lt_of_lt_of_le hi (min_le_right _ _)
        rw [List.getD_append msgs [m] {} i (by omega)]
        apply hb i
        rw [min_eq_right hge]
        exact hi2

/-- Polling with fuel `mTail - mHead` returns exactly the slot contents
from `mHead` (inclusive) to `mTail` (exclusive), in FIFO order. -/
lemma drainFuel_spec (C : Nat) (f : Nat → Message) :
    ∀ (n : Nat) (q : MessageQueue), q.kCapacityPow2 = C →
      q.mTail - q.mHead = n → q.mHead ≤ q.mTail →
      (∀ i, q.mHead ≤ i → i < q.mTail → q.mBuffer (i &&& (C - 1)) = f i) →
      drainFuel n q = (List.range' q.mHead n).map f := by
  intro n
  induction n with
  | zero => intro q _ _ _ _; simp [drainFuel]
  | succ n ihn =>
    intro q hC hsub hle hbuf
    have hlt : q.mHead < q.mTail := by omega
    have hpoll : Poll q
        = (some (q.mBuffer (q.mHead &&& q.kMask)),
           { q with mHead := q.mHead + 1 }) := by
      simp only [Poll]
      rw [if_neg (by omega)]
    have hhd : q.mBuffer (q.mHead &&& q.kMask) = f q.mHead := by
      rw [kMask, hC]
      exact hbuf q.mHead le_rfl hlt
    have hrest : drainFuel n { q with mHead := q.mHead + 1 }
        = (List.range' (q.mHead + 1) n).map f := by
      refine ihn _ hC (by simp; omega) (by simp; omega) ?_
      intro i hi hi'
      exact hbuf i (by simp at hi; omega) (by simpa using hi')
    calc drainFuel (n + 1) q
        = f q.mHead :: drainFuel n { q with mHead := q.mHead + 1 } := by
          simp only [drainFuel, hpoll, hhd]
      _ = (List.range' q.mHead (n + 1)).map f := by
          rw [hrest, List.range'_succ]
          simp

/-- Mapping `getD` over `range' 0 k` recovers the first `k` list entries. -/
lemma range'_map_getD (d : Message) (k : Nat) (msgs : List Message)
    (hk : k ≤ msgs.length) :
    (List.range' 0 k).map (fun i => msgs.getD i d) = msgs.take k := by
  apply List.ext_getElem
  · simp; omega
  · intro i h1 h2
    have hik : i < k := by simpa using h1
    have hil : i < msgs.length := by omega
    simp only [List.getElem_map, List.getElem_take]
    have h3 := @List.getElem_range' 0 k 1 i (by simpa using hik)
    rw [h3]
    simpa using List.getD_eq_getElem msgs d hil

end MessageQueue

/-- Claim C1: for a `MessageQueue` of power-of-two capacity `C = 2 ^ e`:
posting `C + k` messages into a fresh queue while none are consumed
retains exactly the first `C` posted messages (dropping exactly `k`), a
`Post` on a full queue rolls back its slot reservation and leaves the
queue state unchanged, posting at most `C` messages and then repeatedly
polling returns exactly those messages in FIFO order with no duplication
or loss, and `Poll` reports no message exactly when the queue is empty. -/
theorem messageQueue_overflow_and_fifo (e k : Nat)
    (over : List Message) (hover : over.length = 2 ^ e + k)
    (msgs : List Message) (hmsgs : msgs.length ≤ 2 ^ e)
    (qfull : MessageQueue) (hfull : qfull.kCapacityPow2 ≤ qfull.mTail - qfull.mHead)
    (m : Message) (q : MessageQueue) (hwf : q.mHead ≤ q.mTail) :
    MessageQueue.drain (MessageQueue.postAll (MessageQueue.empty (2 ^ e)) over)
        = over.take (2 ^ e)
    ∧ (MessageQueue.postAll (MessageQueue.empty (2 ^ e)) over).mTail
        - (MessageQueue.postAll (MessageQueue.empty (2 ^ e)) over).mHead
        = over.length - k
    ∧ MessageQueue.drain (MessageQueue.postAll (MessageQueue.empty (2 ^ e)) msgs)
        = msgs
    ∧ MessageQueue.Post qfull m = qfull
    ∧ ((MessageQueue.Poll q).1 = none ↔ q.mTail - q.mHead = 0) := by
  have key : ∀ (l : List Message),
      MessageQueue.drain (MessageQueue.postAll (MessageQueue.empty (2 ^ e)) l)
        = l.take (min l.length (2 ^ e)) := by
    intro l
    obtain ⟨hc, hh, ht, hb⟩ := MessageQueue.postAll_spec e l
    unfold MessageQueue.drain
    rw [MessageQueue.drainFuel_spec (2 ^ e) (fun i => l.getD i {})
          _ _ hc rfl (by rw [hh]; exact Nat.zero_le _)
          (fun i _ hi2 => hb i (ht ▸ hi2))]
    rw [hh, ht, Nat.sub_zero]
    exact MessageQueue.range'_map_getD {} _ l (min_le_left _ _)
  refine ⟨?_, ?_, ?_, MessageQueue.post_full_eq qfull m hfull, ?_⟩
  · rw [key over, hover, min_eq_right (by omega)]
  · obtain ⟨_, hh, ht, _⟩ := MessageQueue.postAll_spec e over
    rw [hh, ht, hover, min_eq_right (by omega), Nat.sub_zero]
    omega
  · rw [key msgs, min_eq_left hmsgs, List.take_length]
  · simp only [MessageQueue.Poll]
    by_cases h : q.mHead = q.mTail
    · rw [if_pos h]
      simp
      omega
    · rw [if_neg h]
      simp
      omega

/-- Witness for C1 at capacity `2 ^ 1 = 2`: three posted messages keep the
first two, a two-message FIFO round trip, a no-op `Post` on a full queue,
and `Poll` on an empty queue. -/
theorem messageQueue_overflow_and_fifo_witness :
    MessageQueue.drain (MessageQueue.postAll (MessageQueue.empty (2 ^ 1))
        [⟨0, 10⟩, ⟨0, 11⟩, ⟨0, 12⟩]) = [⟨0, 10⟩, ⟨0, 11⟩]
    ∧ (MessageQueue.postAll (MessageQueue.empty (2 ^ 1))
        [⟨0, 10⟩, ⟨0, 11⟩, ⟨0, 12⟩]).mTail
      - (MessageQueue.postAll (MessageQueue.empty (2 ^ 1))
        [⟨0, 10⟩, ⟨0, 11⟩, ⟨0, 12⟩]).mHead = 2
    ∧ MessageQueue.drain (MessageQueue.postAll (MessageQueue.empty (2 ^ 1))
        [⟨0, 20⟩, ⟨0, 21⟩]) = [⟨0, 20⟩, ⟨0, 21⟩]
    ∧ MessageQueue.Post ⟨2, fun _ => {}, 0, 2⟩ ⟨0, 30⟩ = ⟨2, fun _ => {}, 0, 2⟩
    ∧ ((MessageQueue.Poll (MessageQueue.empty 2)).1 = none
        ↔ (MessageQueue.empty 2).mTail - (MessageQueue.empty 2).mHead = 0) := by
  have h := messageQueue_overflow_and_fifo 1 1
      [⟨0, 10⟩, ⟨0, 11⟩, ⟨0, 12⟩] (by decide)
      [⟨0, 20⟩, ⟨0, 21⟩] (by decide)
      ⟨2, fun _ => {}, 0, 2⟩ (by decide)
      ⟨0, 30⟩ (MessageQueue.empty 2) (by decide)
  refine ⟨?_, ?_, ?_, h.2.2.2.1, h.2.2.2.2⟩
  · have := h.1
    simpa using this
  · have := h.2.1
    simpa using this
  · exact h.2.2.1

/-! ## VrApp session state machine and frame loop (`src/unnamed/part_002`, VrApp.cpp)

`XrSessionState` mirrors the OpenXR session states used by the app.
`AppState` is `VrApp::AppState` (three flags, all default `false`).
A `SessionEvent` is one `XR_TYPE_EVENT_DATA_SESSION_STATE_CHANGED` event
together with the runtime's answer to the `xrBeginSession` call the app
would make on a READY event (`beginSuccess`); the answer of the
environment is part of the event since the app has no other input.
`XrCall` records the externally visible OpenXR calls the claims reason
about. -/

inductive XrSessionState where
  | unknown
  | idle
  | ready
  | synchronized
  | visible
  | focused
  | stopping
  | lossPending
  | exiting
deriving DecidableEq, Repr, Fintype

structure AppState where
  mIsStopRequested : Bool := false
  mIsXrSessionActive : Bool := false
  mHasFocus : Bool := false
deriving DecidableEq, Repr, Fintype

structure SessionEvent where
  state : XrSessionState
  beginSuccess : Bool
deriving DecidableEq, Repr, Fintype

inductive XrCall where
  | beginSession (success : Bool)
  | endSession
  | waitFrame
  | beginFrame
  | recreateSpaces
  | endFrame
deriving DecidableEq, Repr

/-- `VrApp::OXRHandleSessionStateChanges`: on READY call `xrBeginSession`
and set `mIsXrSessionActive` to whether it succeeded; on STOPPING call
`xrEndSession` and clear `mIsXrSessionActive`.  (The performance-level
and thread-priority calls made on a successful begin do not affect the
modelled state.) -/
def OXRHandleSessionStateChanges (state : XrSessionState) (beginSuccess : Bool)
    (a : AppState) : AppState × List XrCall :=
  if state = XrSessionState.ready then
    ({ a with mIsXrSessionActive := beginSuccess }, [XrCall.beginSession beginSuccess])
  else if state = XrSessionState.stopping then
    ({ a with mIsXrSessionActive := false }, [XrCall.endSession])
  else
    (a, [])

/-- `VrApp::OXRHandleSessionStateChangedEvent`: FOCUSED/VISIBLE toggle
`mHasFocus`; READY/STOPPING are forwarded to
`OXRHandleSessionStateChanges`; EXITING sets `mIsStopRequested`; the
remaining states are logged only. -/
def OXRHandleSessionStateChangedEvent (a : AppState) (ev : SessionEvent) :
    AppState × List XrCall :=
  match ev.state with
  | XrSessionState.focused => ({ a with mHasFocus := true }, [])
  | XrSessionState.visible => ({ a with mHasFocus := false }, [])
  | XrSessionState.ready =>
      OXRHandleSessionStateChanges XrSessionState.ready ev.beginSuccess a
  | XrSessionState.stopping =>
      OXRHandleSessionStateChanges XrSessionState.stopping ev.beginSuccess a
  | XrSessionState.exiting => ({ a with mIsStopRequested := true }, [])
  | _ => (a, [])

/-- `VrApp::OXRPollEvents`: drain all pending runtime events in order.
Only session-state-changed events change the modelled state; the other
event kinds in the C++ switch are logged only. -/
def OXRPollEvents (a : AppState) : List SessionEvent → AppState × List XrCall
  | [] => (a, [])
  | ev :: evs =>
    let r := OXRHandleSessionStateChangedEvent a ev
    let rest := OXRPollEvents r.1 evs
    (rest.1, r.2 ++ rest.2)

/-- `VrApp::HandleMessageQueueEvents`: poll at most
`kMaxNumMessagesPerFrame = 20` messages; every `EXIT_NEEDED` message
(type 0, the only type) sets `mIsStopRequested`.  The messages available
this tick are passed in as a list. -/
def HandleMessageQueueEvents (a : AppState) (msgs : List Message) : AppState :=
  (msgs.take 20).foldl
    (fun s msg => if msg.mType = 0 then { s with mIsStopRequested := true } else s) a

/-- `VrApp::HandleInput`: a menu-button press (changed this sync and
currently down) requests a stop. -/
def HandleInput (menuButtonPressed : Bool) (a : AppState) : AppState :=
  if menuButtonPressed then { a with mIsStopRequested := true } else a

/-- `VrApp::Frame`: wait-frame, begin-frame, re-derive the
ForwardDirection/Head reference spaces via
`CreateRuntimeInitiatedReferenceSpaces` exactly when `mFrameIndex == 1`,
then end-frame.  (Head location, input poses, and scene rendering do not
affect the state the claims are about.) -/
def Frame (mFrameIndex : Nat) : List XrCall :=
  [XrCall.waitFrame, XrCall.beginFrame]
    ++ (if mFrameIndex = 1 then [XrCall.recreateSpaces] else [])
    ++ [XrCall.endFrame]

/-- Loop-carried state of `VrApp::MainLoop`: the previous iteration's
`AppState` and the frame index. -/
structure LoopState where
  mLastAppState : AppState
  mFrameIndex : Nat
deriving DecidableEq, Repr

/-- Initial `VrApp` state: default `AppState`, `mFrameIndex = 0`. -/
def initLoopState : LoopState := { mLastAppState := {}, mFrameIndex := 0 }

/-- Environment input consumed by one iteration of the main loop: the
runtime events drained by `OXRPollEvents`, the messages available in the
message queue, and whether the menu button was pressed this tick. -/
structure TickInput where
  events : List SessionEvent
  queueMessages : List Message
  menuButtonPressed : Bool
deriving Repr

/-- Observable record of one completed loop iteration. -/
structure TickRecord where
  active : Bool
  frameIndex : Nat
  recreatedSpaces : Bool
  calls : List XrCall
deriving DecidableEq, Repr, Inhabited

/-- Result of running `VrApp::MainLoop` on a list of tick inputs. -/
structure RunResult where
  records : List TickRecord
  calls : List XrCall
  final : LoopState
  broke : Bool
deriving Repr

/-- `VrApp::MainLoop`: per iteration, handle events (runtime events then
message queue), break if a stop is requested, otherwise if the session
is active increment `mFrameIndex`, sync input (`HandleInput` may request
a stop seen next iteration), run `Frame`, and store the new state in
`mLastAppState`; if the session is inactive reset `mFrameIndex` to 0. -/
def runMainLoop : LoopState → List TickInput → RunResult
  | s, [] => { records := [], calls := [], final := s, broke := false }
  | s, t :: ts =>
    let pe := OXRPollEvents s.mLastAppState t.events
    let a2 := HandleMessageQueueEvents pe.1 t.queueMessages
    if a2.mIsStopRequested then
      { records := [], calls := pe.2, final := s, broke := true }
    else if a2.mIsXrSessionActive then
      let fi := s.mFrameIndex + 1
      let a3 := HandleInput t.menuButtonPressed a2
      let r := runMainLoop { mLastAppState := a3, mFrameIndex := fi } ts
      { records := { active := true, frameIndex := fi,
                     recreatedSpaces := fi == 1, calls := pe.2 ++ Frame fi } :: r.records,
        calls := pe.2 ++ Frame fi ++ r.calls,
        final := r.final, broke := r.broke }
    else
      let r := runMainLoop { mLastAppState := a2, mFrameIndex := 0 } ts
      { records := { active := false, frameIndex := 0,
                     recreatedSpaces := false, calls := pe.2 } :: r.records,
        calls := pe.2 ++ r.calls,
        final := r.final, broke := r.broke }

/-! ### Runtime session-state protocol

The environment assumption for C2/C3: session states arrive only along
the declared state graph (spec §4.1): Unknown → Idle → Ready →
Synchronized → Visible → Focused, Stopping after any in-session state,
Stopping → Idle for re-entry, Stopping → (LossPending | Exiting); the
runtime proceeds past Ready only when the begin-session call succeeded,
and Ready is never re-entered without an intervening Stopping.
`ProtoState.begun` tracks whether the session is currently begun (set by
the app's `xrBeginSession` at READY, cleared by `xrEndSession` at
STOPPING). -/

structure ProtoState where
  state : XrSessionState
  begun : Bool
deriving DecidableEq, Repr, Fintype

def protoInit : ProtoState := { state := XrSessionState.unknown, begun := false }

/-- Which session-state-changed events the runtime may deliver next. -/
def runtimeAllows (p : ProtoState) (ev : SessionEvent) : Bool :=
  match p.state, ev.state with
  | XrSessionState.unknown, XrSessionState.idle => true
  | XrSessionState.idle, XrSessionState.ready => true
  | XrSessionState.ready, XrSessionState.synchronized => p.begun
  | XrSessionState.ready, XrSessionState.stopping => p.begun
  | XrSessionState.synchronized, XrSessionState.visible => true
  | XrSessionState.synchronized, XrSessionState.stopping => true
  | XrSessionState.visible, XrSessionState.focused => true
  | XrSessionState.visible, XrSessionState.synchronized => true
  | XrSessionState.visible, XrSessionState.stopping => true
  | XrSessionState.focused, XrSessionState.visible => true
  | XrSessionState.focused, XrSessionState.stopping => true
  | XrSessionState.stopping, XrSessionState.idle => true
  | XrSessionState.stopping, XrSessionState.lossPending => true
  | XrSessionState.stopping, XrSessionState.exiting => true
  | _, _ => false

/-- Protocol step: the delivered state becomes current; `begun` is set by
the begin-session outcome at READY and cleared at STOPPING. -/
def protoNext (p : ProtoState) (ev : SessionEvent) : ProtoState :=
  match ev.state with
  | XrSessionState.ready => { state := XrSessionState.ready, begun := ev.beginSuccess }
  | XrSessionState.stopping => { state := XrSessionState.stopping, begun := false }
  | s => { state := s, begun := p.begun }

/-- A whole event sequence is deliverable from `p`. -/
def validSeq (p : ProtoState) : List SessionEvent → Bool
  | [] => true
  | ev :: evs => runtimeAllows p ev && validSeq (protoNext p ev) evs

/-- Protocol state after a sequence of events. -/
def protoRun (p : ProtoState) (evs : List SessionEvent) : ProtoState :=
  evs.foldl protoNext p

/-- All runtime events of a tick list, in delivery order. -/
def allEvents (ts : List TickInput) : List SessionEvent :=
  (ts.map TickInput.events).flatten

/-- The claim's set of session-active states: Ready after a successful
begin-session call, Synchronized, Visible, Focused. -/
def activePhase (p : ProtoState) : Bool :=
  match p.state with
  | XrSessionState.synchronized => true
  | XrSessionState.visible => true
  | XrSessionState.focused => true
  | XrSessionState.ready => p.begun
  | _ => false

/-- Per-event preservation of the session-active invariant: if the active
flag matches `activePhase` and the runtime may deliver `ev`, the flag
matches `activePhase` after handling `ev`.  All types are finite, so this
is settled by enumeration. -/
lemma sessionEvent_step_active :
    ∀ (a : AppState) (p : ProtoState) (ev : SessionEvent),
      a.mIsXrSessionActive = activePhase p →
      runtimeAllows p ev = true →
      (OXRHandleSessionStateChangedEvent a ev).1.mIsXrSessionActive
        = activePhase (protoNext p ev) := by
  decide

/-! ### Begin/end call discipline (for C3)

`beginEndRun` is an automaton over the emitted `XrCall` trace whose state
is "an activation cycle is open" (a successful begin-session has happened
with no end-session yet).  It rejects (returns `none`) a second
begin-session inside an open cycle, an end-session or a wait-frame
outside one, so acceptance states exactly: every activation cycle opens
with one successful begin-session, closes with one end-session, contains
no duplicate of either, and every wait-frame happens inside a cycle,
i.e. after that cycle's single begin-session. -/

def beginEndStep (inCycle : Bool) (c : XrCall) : Option Bool :=
  match inCycle, c with
  | false, XrCall.beginSession s => some s
  | false, XrCall.endSession => none
  | false, XrCall.waitFrame => none
  | true, XrCall.beginSession _ => none
  | true, XrCall.endSession => some false
  | true, XrCall.waitFrame => some true
  | b, XrCall.beginFrame => some b
  | b, XrCall.recreateSpaces => some b
  | b, XrCall.endFrame => some b

def beginEndRun : Bool → List XrCall → Option Bool
  | b, [] => some b
  | b, c :: cs =>
    match beginEndStep b c with
    | none => none
    | some b2 => beginEndRun b2 cs

/-- A call trace respects the begin/end discipline. -/
def beginEndOk (b : Bool) (cs : List XrCall) : Bool :=
  (beginEndRun b cs).isSome

lemma beginEndRun_append (b : Bool) (l1 l2 : List XrCall) :
    beginEndRun b (l1 ++ l2)
      = match beginEndRun b l1 with
        | none => none
        | some b2 => beginEndRun b2 l2 := by
  induction l1 generalizing b with
  | nil => simp [beginEndRun]
  | cons c cs ih =>
    simp only [List.cons_append, beginEndRun]
    cases beginEndStep b c with
    | none => rfl
    | some b2 => exact ih b2

/-- Per-event: handling one deliverable event takes the automaton from
the current active flag to the new active flag. -/
lemma sessionEvent_step_calls :
    ∀ (a : AppState) (p : ProtoState) (ev : SessionEvent),
      a.mIsXrSessionActive = activePhase p →
      runtimeAllows p ev = true →
      beginEndRun a.mIsXrSessionActive (OXRHandleSessionStateChangedEvent a ev).2
        = some (OXRHandleSessionStateChangedEvent a ev).1.mIsXrSessionActive := by
  decide

/-- Event-drain invariant: over a deliverable event sequence,
`OXRPollEvents` keeps the active flag equal to `activePhase`, and its
emitted calls drive the begin/end automaton from the old to the new
active flag. -/
lemma pollEvents_inv (evs : List SessionEvent) :
    ∀ (a : AppState) (p : ProtoState),
      a.mIsXrSessionActive = activePhase p →
      validSeq p evs = true →
      (OXRPollEvents a evs).1.mIsXrSessionActive = activePhase (protoRun p evs)
      ∧ beginEndRun a.mIsXrSessionActive (OXRPollEvents a evs).2
          = some (OXRPollEvents a evs).1.mIsXrSessionActive := by
  induction evs with
  | nil =>
    intro a p hinv _
    exact ⟨hinv, rfl⟩
  | cons ev evs ih =>
    intro a p hinv hv
    have hv1 : runtimeAllows p ev = true := by
      simp [validSeq] at hv
      exact hv.1
    have hv2 : validSeq (protoNext p ev) evs = true := by
      simp [validSeq] at hv
      exact hv.2
    have hstep := sessionEvent_step_active a p ev hinv hv1
    have hcalls := sessionEvent_step_calls a p ev hinv hv1
    obtain ⟨ih1, ih2⟩ := ih (OXRHandleSessionStateChangedEvent a ev).1
        (protoNext p ev) hstep hv2
    constructor
    · simpa [OXRPollEvents, protoRun] using ih1
    · simp only [OXRPollEvents, beginEndRun_append, hcalls]
      simpa using ih2

/-- `HandleMessageQueueEvents` never changes the session-active flag. -/
lemma handleMessageQueue_active (msgs : List Message) :
    ∀ (a : AppState),
      (HandleMessageQueueEvents a msgs).mIsXrSessionActive = a.mIsXrSessionActive := by
  unfold HandleMessageQueueEvents
  generalize msgs.take 20 = l
  induction l with
  | nil => intro a; rfl
  | cons msg l ih =>
    intro a
    simp only [List.foldl_cons]
    rw [ih]
    by_cases h : msg.mType = 0 <;> simp [h]

/-- `HandleInput` never changes the session-active flag. -/
lemma handleInput_active (b : Bool) (a : AppState) :
    (HandleInput b a).mIsXrSessionActive = a.mIsXrSessionActive := by
  unfold HandleInput
  by_cases h : b <;> simp [h]

/-- The frame calls keep an open activation cycle open. -/
lemma frame_beginEndRun (fi : Nat) :
    beginEndRun true (Frame fi) = some true := by
  by_cases h : fi = 1 <;> simp [Frame, h, beginEndRun, beginEndStep]

lemma protoRun_append (p : ProtoState) (l1 l2 : List SessionEvent) :
    protoRun p (l1 ++ l2) = protoRun (protoRun p l1) l2 :=
  List.foldl_append ..

lemma validSeq_append (l1 l2 : List SessionEvent) :
    ∀ (p : ProtoState),
      validSeq p (l1 ++ l2) = (validSeq p l1 && validSeq (protoRun p l1) l2) := by
  induction l1 with
  | nil => intro p; simp [validSeq, protoRun]
  | cons ev l1 ih =>
    intro p
    simp only [List.cons_append, validSeq, List.append_eq]
    rw [ih (protoNext p ev)]
    cases runtimeAllows p ev <;> simp [protoRun]

/-- Main-loop invariant: starting from a loop state whose active flag
matches `activePhase p`, over any deliverable event stream the emitted
call trace respects the begin/end discipline, and if the loop never
breaks the final active flag matches `activePhase` of the final protocol
state. -/
lemma runMainLoop_inv (ticks : List TickInput) :
    ∀ (s : LoopState) (p : ProtoState),
      s.mLastAppState.mIsXrSessionActive = activePhase p →
      validSeq p (allEvents ticks) = true →
      beginEndOk s.mLastAppState.mIsXrSessionActive (runMainLoop s ticks).calls = true
      ∧ ((runMainLoop s ticks).broke = false →
          (runMainLoop s ticks).final.mLastAppState.mIsXrSessionActive
            = activePhase (protoRun p (allEvents ticks))) := by
  induction ticks with
  | nil =>
    intro s p hinv _
    refine ⟨rfl, fun _ => ?_⟩
    simpa [allEvents, protoRun] using hinv
  | cons t ts ih =>
    intro s p hinv hv
    have hsplit : allEvents (t :: ts) = t.events ++ allEvents ts := by
      simp [allEvents]
    rw [hsplit, validSeq_append] at hv
    have hv1 : validSeq p t.events = true := by
      simp at hv
      exact hv.1
    have hv2 : validSeq (protoRun p t.events) (allEvents ts) = true := by
      simp at hv
      exact hv.2
    obtain ⟨hact, hcalls⟩ := pollEvents_inv t.events s.mLastAppState p hinv hv1
    have hq := handleMessageQueue_active t.queueMessages
        (OXRPollEvents s.mLastAppState t.events).1
    by_cases hstop : (HandleMessageQueueEvents (OXRPollEvents s.mLastAppState t.events).1
        t.queueMessages).mIsStopRequested = true
    · -- break: only the event-drain calls were emitted
      have hrun : runMainLoop s (t :: ts)
          = { records := [], calls := (OXRPollEvents s.mLastAppState t.events).2,
              final := s, broke := true } := by
        simp only [runMainLoop]
        rw [if_pos hstop]
      rw [hrun]
      refine ⟨?_, fun hbr => by simp at hbr⟩
      simp only [beginEndOk, hcalls, Option.isSome_some]
    · by_cases hactive : (HandleMessageQueueEvents (OXRPollEvents s.mLastAppState t.events).1
          t.queueMessages).mIsXrSessionActive = true
      · -- active tick
        have hrun : runMainLoop s (t :: ts)
            = { records := { active := true, frameIndex := s.mFrameIndex + 1,
                             recreatedSpaces := s.mFrameIndex + 1 == 1,
                             calls := (OXRPollEvents s.mLastAppState t.events).2
                               ++ Frame (s.mFrameIndex + 1) }
                  :: (runMainLoop
                        { mLastAppState := HandleInput t.menuButtonPressed
                            (HandleMessageQueueEvents
                              (OXRPollEvents s.mLastAppState t.events).1 t.queueMessages),
                          mFrameIndex := s.mFrameIndex + 1 } ts).records,
                calls := (OXRPollEvents s.mLastAppState t.events).2
                  ++ Frame (s.mFrameIndex + 1)
                  ++ (runMainLoop
                        { mLastAppState := HandleInput t.menuButtonPressed
                            (HandleMessageQueueEvents
                              (OXRPollEvents s.mLastAppState t.events).1 t.queueMessages),
                          mFrameIndex := s.mFrameIndex + 1 } ts).calls,
                final := (runMainLoop
                        { mLastAppState := HandleInput t.menuButtonPressed
                            (HandleMessageQueueEvents
                              (OXRPollEvents s.mLastAppState t.events).1 t.queueMessages),
                          mFrameIndex := s.mFrameIndex + 1 } ts).final,
                broke := (runMainLoop
                        { mLastAppState := HandleInput t.menuButtonPressed
                            (HandleMessageQueueEvents
                              (OXRPollEvents s.mLastAppState t.events).1 t.queueMessages),
                          mFrameIndex := s.mFrameIndex + 1 } ts).broke } := by
          simp only [runMainLoop]
          rw [if_neg hstop, if_pos hactive]
        have hpollactive : (OXRPollEvents s.mLastAppState t.events).1.mIsXrSessionActive
            = true := by
          rw [← hq]
          exact hactive
        have hnextinv : (HandleInput t.menuButtonPressed
            (HandleMessageQueueEvents (OXRPollEvents s.mLastAppState t.events).1
              t.queueMessages)).mIsXrSessionActive
            = activePhase (protoRun p t.events) := by
          rw [handleInput_active, hq, hpollactive, ← hact, hpollactive]
        obtain ⟨ih1, ih2⟩ := ih
            { mLastAppState := HandleInput t.menuButtonPressed
                (HandleMessageQueueEvents (OXRPollEvents s.mLastAppState t.events).1
                  t.queueMessages),
              mFrameIndex := s.mFrameIndex + 1 }
            (protoRun p t.events) hnextinv hv2
        rw [hrun]
        constructor
        · simp only [beginEndOk, beginEndRun_append, hcalls, hpollactive,
            frame_beginEndRun]
          have h3 : (HandleInput t.menuButtonPressed
              (HandleMessageQueueEvents (OXRPollEvents s.mLastAppState t.events).1
                t.queueMessages)).mIsXrSessionActive = true := by
            rw [handleInput_active, hq]
            exact hpollactive
          simp only [beginEndOk, h3] at ih1
          simpa using ih1
        · intro hbr
          simp only at hbr
          rw [hsplit, protoRun_append]
          exact ih2 hbr
      · -- inactive tick
        have hrun : runMainLoop s (t :: ts)
            = { records := { active := false, frameIndex := 0,
                             recreatedSpaces := false,
                             calls := (OXRPollEvents s.mLastAppState t.events).2 }
                  :: (runMainLoop
                        { mLastAppState := HandleMessageQueueEvents
                            (OXRPollEvents s.mLastAppState t.events).1 t.queueMessages,
                          mFrameIndex := 0 } ts).records,
                calls := (OXRPollEvents s.mLastAppState t.events).2
                  ++ (runMainLoop
                        { mLastAppState := HandleMessageQueueEvents
                            (OXRPollEvents s.mLastAppState t.events).1 t.queueMessages,
                          mFrameIndex := 0 } ts).calls,
                final := (runMainLoop
                        { mLastAppState := HandleMessageQueueEvents
                            (OXRPollEvents s.mLastAppState t.events).1 t.queueMessages,
                          mFrameIndex := 0 } ts).final,
                broke := (runMainLoop
                        { mLastAppState := HandleMessageQueueEvents
                            (OXRPollEvents s.mLastAppState t.events).1 t.queueMessages,
                          mFrameIndex := 0 } ts).broke } := by
          simp only [runMainLoop]
          rw [if_neg hstop, if_neg hactive]
        have hnextinv : (HandleMessageQueueEvents
            (OXRPollEvents s.mLastAppState t.events).1
              t.queueMessages).mIsXrSessionActive
            = activePhase (protoRun p t.events) := by
          rw [hq]
          exact hact
        obtain ⟨ih1, ih2⟩ := ih
            { mLastAppState := HandleMessageQueueEvents
                (OXRPollEvents s.mLastAppState t.events).1 t.queueMessages,
              mFrameIndex := 0 }
            (protoRun p t.events) hnextinv hv2
        rw [hrun]
        constructor
        · simp only [beginEndOk, beginEndRun_append, hcalls]
          simp only [beginEndOk] at ih1
          rw [hq] at ih1
          simpa using ih1
        · intro hbr
          simp only at hbr
          rw [hsplit, protoRun_append]
          exact ih2 hbr

/-! ### Frame-index chain (for C4) -/

/-- The per-tick frame-index discipline, relative to the frame index
before the first listed tick: an active tick increments by exactly one,
an inactive tick resets to zero, and spaces are re-derived exactly on an
active tick whose frame index is 1. -/
def ChainOk : Nat → List TickRecord → Prop
  | _, [] => True
  | prevFi, r :: rest =>
      (r.active = true → r.frameIndex = prevFi + 1)
      ∧ (r.active = false → r.frameIndex = 0)
      ∧ r.recreatedSpaces = (r.active && (r.frameIndex == 1))
      ∧ ChainOk r.frameIndex rest

lemma runMainLoop_chainOk (ticks : List TickInput) :
    ∀ (s : LoopState), ChainOk s.mFrameIndex (runMainLoop s ticks).records := by
  induction ticks with
  | nil => intro s; simp [runMainLoop, ChainOk]
  | cons t ts ih =>
    intro s
    by_cases hstop : (HandleMessageQueueEvents (OXRPollEvents s.mLastAppState t.events).1
        t.queueMessages).mIsStopRequested = true
    · have hrun : (runMainLoop s (t :: ts)).records = [] := by
        simp only [runMainLoop]
        rw [if_pos hstop]
      rw [hrun]
      trivial
    · by_cases hactive : (HandleMessageQueueEvents (OXRPollEvents s.mLastAppState t.events).1
          t.queueMessages).mIsXrSessionActive = true
      · have hrun : (runMainLoop s (t :: ts)).records
            = { active := true, frameIndex := s.mFrameIndex + 1,
                recreatedSpaces := s.mFrameIndex + 1 == 1,
                calls := (OXRPollEvents s.mLastAppState t.events).2
                  ++ Frame (s.mFrameIndex + 1) }
              :: (runMainLoop
                    { mLastAppState := HandleInput t.menuButtonPressed
                        (HandleMessageQueueEvents
                          (OXRPollEvents s.mLastAppState t.events).1 t.queueMessages),
                      mFrameIndex := s.mFrameIndex + 1 } ts).records := by
          simp only [runMainLoop]
          rw [if_neg hstop, if_pos hactive]
        rw [hrun]
        refine ⟨fun _ => rfl, fun h => by simp at h, by simp, ?_⟩
        exact ih { mLastAppState := HandleInput t.menuButtonPressed (HandleMessageQueueEvents (OXRPollEvents s.mLastAppState t.events).1 t.queueMessages), mFrameIndex := s.mFrameIndex + 1 }
      · have hrun : (runMainLoop s (t :: ts)).records
            = { active := false, frameIndex := 0, recreatedSpaces := false,
                calls := (OXRPollEvents s.mLastAppState t.events).2 }
              :: (runMainLoop
                    { mLastAppState := HandleMessageQueueEvents
                        (OXRPollEvents s.mLastAppState t.events).1 t.queueMessages,
                      mFrameIndex := 0 } ts).records := by
          simp only [runMainLoop]
          rw [if_neg hstop, if_neg hactive]
        rw [hrun]
        refine ⟨fun h => by simp at h, fun _ => rfl, by simp, ?_⟩
        exact ih { mLastAppState := HandleMessageQueueEvents (OXRPollEvents s.mLastAppState t.events).1 t.queueMessages, mFrameIndex := 0 }

lemma chainOk_getD (l : List TickRecord) :
    ∀ (prevFi : Nat), ChainOk prevFi l → ∀ i, i < l.length →
      ((l.getD i default).active = true →
        (l.getD i default).frameIndex
          = (if i = 0 then prevFi else (l.getD (i - 1) default).frameIndex) + 1)
      ∧ ((l.getD i default).active = false → (l.getD i default).frameIndex = 0)
      ∧ (l.getD i default).recreatedSpaces
          = ((l.getD i default).active && ((l.getD i default).frameIndex == 1)) := by
  induction l with
  | nil => intro prevFi _ i hi; simp at hi
  | cons r rest ih =>
    intro prevFi hchain i hi
    obtain ⟨h1, h2, h3, htail⟩ := hchain
    match i with
    | 0 =>
      simpa using ⟨h1, h2, h3⟩
    | Nat.succ j =>
      have hj : j < rest.length := by simpa using hi
      have hih := ih r.frameIndex htail j hj
      match j with
      | 0 =>
        simpa using hih
      | Nat.succ j2 =>
        simpa using hih

/-- Claim C2: at every reachable point of the frame loop (equivalently:
after any deliverable tick prefix the loop processes without breaking),
`AppState.mIsXrSessionActive` is true iff the session state is in
{Ready after a successful begin-session, Synchronized, Visible, Focused}
(`activePhase`); in particular, when the latest state is Ready but the
begin-session call failed, the app is not marked active. -/
theorem sessionActive_iff_activePhase (ticks : List TickInput)
    (hv : validSeq protoInit (allEvents ticks) = true)
    (hnb : (runMainLoop initLoopState ticks).broke = false) :
    ((runMainLoop initLoopState ticks).final.mLastAppState.mIsXrSessionActive = true
      ↔ activePhase (protoRun protoInit (allEvents ticks)) = true)
    ∧ ((protoRun protoInit (allEvents ticks)).state = XrSessionState.ready →
        (protoRun protoInit (allEvents ticks)).begun = false →
        (runMainLoop initLoopState ticks).final.mLastAppState.mIsXrSessionActive
          = false) := by
  have h := runMainLoop_inv ticks initLoopState protoInit rfl hv
  have h2 := h.2 hnb
  constructor
  · rw [h2]
  · intro hready hbegun
    rw [h2]
    simp [activePhase, hready, hbegun]

/-- Claim C3: over any deliverable event stream, the OpenXR call trace of
the main loop respects the activation-cycle discipline `beginEndOk`: each
activation cycle opens with exactly one (successful) begin-session call,
closes with exactly one end-session call (emitted exactly on the
transition to Stopping), neither call occurs twice in a cycle, and every
wait-frame call lies strictly inside a cycle — hence after that cycle's
begin-session call. -/
theorem beginEnd_once_per_cycle (ticks : List TickInput)
    (hv : validSeq protoInit (allEvents ticks) = true) :
    beginEndOk false (runMainLoop initLoopState ticks).calls = true :=
  (runMainLoop_inv ticks initLoopState protoInit rfl hv).1

/-- Claim C4: in the per-tick records of any main-loop run, an active
tick's frame index is the previous tick's frame index plus one, an
inactive tick's frame index is 0, the first active tick after the
session becomes (or re-becomes) active has frame index 1, and the
ForwardDirection/Head reference spaces are re-derived exactly on the
tick whose frame index is 1 (the first active frame). -/
theorem frameIndex_sequence (ticks : List TickInput) (i : Nat)
    (hi : i < (runMainLoop initLoopState ticks).records.length) :
    (((runMainLoop initLoopState ticks).records.getD i default).active = true →
      ((runMainLoop initLoopState ticks).records.getD i default).frameIndex
        = (if i = 0 then 0
           else ((runMainLoop initLoopState ticks).records.getD (i - 1) default).frameIndex)
          + 1)
    ∧ (((runMainLoop initLoopState ticks).records.getD i default).active = false →
      ((runMainLoop initLoopState ticks).records.getD i default).frameIndex = 0)
    ∧ (((runMainLoop initLoopState ticks).records.getD i default).active = true →
      (i = 0 ∨ ((runMainLoop initLoopState ticks).records.getD (i - 1) default).active
          = false) →
      ((runMainLoop initLoopState ticks).records.getD i default).frameIndex = 1)
    ∧ ((runMainLoop initLoopState ticks).records.getD i default).recreatedSpaces
        = (((runMainLoop initLoopState ticks).records.getD i default).active
           && (((runMainLoop initLoopState ticks).records.getD i default).frameIndex == 1)) := by
  have hchain := runMainLoop_chainOk ticks initLoopState
  have h := chainOk_getD (runMainLoop initLoopState ticks).records
      initLoopState.mFrameIndex hchain i hi
  refine ⟨h.1, h.2.1, ?_, h.2.2⟩
  intro hact hprev
  rcases hprev with h0 | hprevinactive
  · have := h.1 hact
    rw [h0] at this ⊢
    simpa using this
  · by_cases h0 : i = 0
    · have := h.1 hact
      rw [h0] at this ⊢
      simpa using this
    · have hprevlt : i - 1 < (runMainLoop initLoopState ticks).records.length := by
        omega
      have hp := chainOk_getD (runMainLoop initLoopState ticks).records
          initLoopState.mFrameIndex hchain (i - 1) hprevlt
      have hpfi := hp.2.1 hprevinactive
      have := h.1 hact
      rw [if_neg h0, hpfi] at this
      exact this

/-- A deliverable six-tick run: Idle; Ready with a successful begin;
an event-free active tick; Synchronized; Stopping; an event-free
inactive tick. -/
def demoTicks : List TickInput :=
  [ { events := [{ state := XrSessionState.idle, beginSuccess := false }],
      queueMessages := [], menuButtonPressed := false },
    { events := [{ state := XrSessionState.ready, beginSuccess := true }],
      queueMessages := [], menuButtonPressed := false },
    { events := [], queueMessages := [], menuButtonPressed := false },
    { events := [{ state := XrSessionState.synchronized, beginSuccess := false }],
      queueMessages := [], menuButtonPressed := false },
    { events := [{ state := XrSessionState.stopping, beginSuccess := false }],
      queueMessages := [], menuButtonPressed := false },
    { events := [], queueMessages := [], menuButtonPressed := false } ]

/-- Witness for C2 on `demoTicks`. -/
theorem sessionActive_iff_activePhase_witness :
    validSeq protoInit (allEvents demoTicks) = true
    ∧ (runMainLoop initLoopState demoTicks).broke = false
    ∧ ((runMainLoop initLoopState demoTicks).final.mLastAppState.mIsXrSessionActive = true
        ↔ activePhase (protoRun protoInit (allEvents demoTicks)) = true) :=
  ⟨by decide, by decide,
   (sessionActive_iff_activePhase demoTicks (by decide) (by decide)).1⟩

/-- Witness for C3 on `demoTicks`. -/
theorem beginEnd_once_per_cycle_witness :
    validSeq protoInit (allEvents demoTicks) = true
    ∧ beginEndOk false (runMainLoop initLoopState demoTicks).calls = true :=
  ⟨by decide, beginEnd_once_per_cycle demoTicks (by decide)⟩

/-- Witness for C4 on `demoTicks`: tick 1 is the first active tick
(frame index 1 after the inactive tick 0, spaces re-derived), tick 4 is
the tick on which the session becomes inactive (frame index reset to 0). -/
theorem frameIndex_sequence_witness :
    ((runMainLoop initLoopState demoTicks).records.getD 1 default).active = true
    ∧ ((runMainLoop initLoopState demoTicks).records.getD 0 default).active = false
    ∧ ((runMainLoop initLoopState demoTicks).records.getD 1 default).frameIndex = 1
    ∧ ((runMainLoop initLoopState demoTicks).records.getD 4 default).frameIndex = 0
    ∧ ((runMainLoop initLoopState demoTicks).records.getD 1 default).recreatedSpaces
        = (((runMainLoop initLoopState demoTicks).records.getD 1 default).active
           && (((runMainLoop initLoopState demoTicks).records.getD 1 default).frameIndex
               == 1)) :=
  ⟨by decide, by decide,
   (frameIndex_sequence demoTicks 1 (by decide)).2.2.1 (by decide) (Or.inr (by decide)),
   (frameIndex_sequence demoTicks 4 (by decide)).2.1 (by decide),
   (frameIndex_sequence demoTicks 1 (by decide)).2.2.2⟩

/-! ## Framebuffer (`src/app/src/main/cpp/gl/Framebuffer.cpp`)

`Framebuffer` mirrors the C++ members.  GL object names are `Nat`
(0 = none), sizes and sample counts are `Int` (C++ `int`), swapchain
formats are `Int` (`int64_t`, compared against the `GLenum` colorFormat).
The driver/runtime side of `Create` is an environment record: which
extension entry points resolve, the session's enumerated swapchain
formats, the swapchain handle and images `xrCreateSwapchain` /
`xrEnumerateSwapchainImages` produce, the GL names `glGenRenderbuffers` /
`glGenFramebuffers` hand out, and each constructed target's
`glCheckFramebufferStatus` answer. -/

structure Swapchain where
  mHandle : Option Nat := none
  mWidth : Int := 0
  mHeight : Int := 0
deriving DecidableEq, Repr, Inhabited

structure Framebuffer where
  mWidth : Int := 0
  mHeight : Int := 0
  mMultisamples : Int := 0
  mUseMultiview : Bool := false
  mTextureSwapChainLength : Nat := 0
  mTextureSwapChainIndex : Nat := 0
  mColorSwapChain : Swapchain := {}
  mColorSwapChainImages : List Nat := []
  mDepthBuffers : List Nat := []
  mFrameBuffers : List Nat := []
  mMsaaColorBuffers : List Nat := []
deriving DecidableEq, Repr, Inhabited

structure GlCreateEnv where
  /-- `glFramebufferTextureMultiviewOVR` resolved (non-null). -/
  hasMultiviewProc : Bool
  /-- the GL extension string contains `GL_OVR_multiview2`. -/
  extensionsHasMultiview2 : Bool
  /-- `glRenderbufferStorageMultisampleEXT` resolved (non-null). -/
  hasMsaaRenderbufferProc : Bool
  /-- `xrEnumerateSwapchainFormats` result. -/
  supportedFormats : List Int
  /-- handle produced by `xrCreateSwapchain`. -/
  swapchainHandle : Nat
  /-- images produced by `xrEnumerateSwapchainImages`. -/
  swapchainImages : List Nat
  /-- GL names from `glGenRenderbuffers` for the depth buffer of index `i`. -/
  depthIds : Nat → Nat
  /-- GL names from `glGenFramebuffers` for index `i`. -/
  fbIds : Nat → Nat
  /-- GL names from `glGenRenderbuffers` for the MSAA color buffer of index `i`. -/
  msaaIds : Nat → Nat
  /-- `glCheckFramebufferStatus(GL_DRAW_FRAMEBUFFER) == GL_FRAMEBUFFER_COMPLETE`
  for the target of index `i` right after construction.  When the initial
  status is incomplete, `Create` attempts the sample-count fix but then
  still tests the stale `status` variable, so it returns `false` for any
  initially-incomplete target regardless of the fix's outcome. -/
  fbStatusComplete : Nat → Bool

namespace Framebuffer

/-- The per-swap-image construction loop of `Framebuffer::Create`
(lines 199-340): for each image, generate a depth renderbuffer and a
framebuffer object, plus an MSAA color renderbuffer when multisampled
and not multiview (`mMsaaColorBuffers[i] = 0` otherwise), then check
completeness; an incomplete target makes `Create` return `false`
immediately (the texture-parameter and attachment GL calls do not change
any modelled state).  `i` is the current index, the second argument the
remaining count. -/
def createImagesLoop (env : GlCreateEnv) (msaaColor : Bool) :
    Nat → Nat → Framebuffer → Bool × Framebuffer
  | _, 0, fb => (true, fb)
  | i, rem + 1, fb =>
    let fb := { fb with
      mDepthBuffers := fb.mDepthBuffers.set i (env.depthIds i),
      mFrameBuffers := fb.mFrameBuffers.set i (env.fbIds i),
      mMsaaColorBuffers := fb.mMsaaColorBuffers.set i
        (if msaaColor then env.msaaIds i else 0) }
    if env.fbStatusComplete i then
      createImagesLoop env msaaColor (i + 1) rem fb
    else
      (false, fb)

/-- `Framebuffer::Create`: store the parameters; fall back to
non-multiview when the multiview entry point or extension is missing;
verify `colorFormat` against the session's enumerated swapchain formats
and fail (before creating anything) if absent; otherwise create the
swapchain, query its images, size the buffer vectors, and run the
construction loop. -/
def Create (env : GlCreateEnv) (colorFormat : Int) (width height : Int)
    (multisamples : Int) (useMultiview : Bool) (fb : Framebuffer) :
    Bool × Framebuffer :=
  let fb := { fb with
    mWidth := width, mHeight := height,
    mMultisamples := multisamples, mUseMultiview := useMultiview }
  let fb := if fb.mUseMultiview && !env.hasMultiviewProc then
      { fb with mUseMultiview := false } else fb
  let fb := if fb.mUseMultiview
      && !(env.extensionsHasMultiview2 && env.hasMultiviewProc) then
      { fb with mUseMultiview := false } else fb
  -- verify color format
  if !(env.supportedFormats.contains colorFormat) then
    (false, fb)
  else
    let len := env.swapchainImages.length
    let fb := { fb with
      mColorSwapChain := { mHandle := some env.swapchainHandle,
                           mWidth := width, mHeight := height },
      mTextureSwapChainLength := len,
      mColorSwapChainImages := env.swapchainImages,
      mDepthBuffers := List.replicate len 0,
      mFrameBuffers := List.replicate len 0,
      mMsaaColorBuffers := List.replicate len 0 }
    createImagesLoop env (multisamples > 1 && !fb.mUseMultiview) 0 len fb

/-- `Framebuffer::Destroy`: delete the framebuffers, depth buffers and
MSAA color buffers, destroy the swapchain, clear the image list, and
zero every scalar member. -/
def Destroy (fb : Framebuffer) : Framebuffer :=
  let fb := { fb with mFrameBuffers := [] }
  let fb := { fb with mDepthBuffers := [] }
  let fb := { fb with mMsaaColorBuffers := [] }
  let fb := { fb with
    mColorSwapChain := { fb.mColorSwapChain with mHandle := none } }
  let fb := { fb with mColorSwapChainImages := [] }
  { fb with
    mWidth := 0, mHeight := 0, mMultisamples := 0, mUseMultiview := false,
    mTextureSwapChainLength := 0, mTextureSwapChainIndex := 0,
    mColorSwapChain := { mHandle := fb.mColorSwapChain.mHandle,
                         mWidth := 0, mHeight := 0 } }

/-- `Framebuffer::SetCurrent`: bind `mFrameBuffers[mTextureSwapChainIndex]`
as the draw framebuffer only when the list is non-empty and the index is
in range; otherwise do nothing.  The result is the bind that happens
(`none` = no `glBindFramebuffer` call at all). -/
def SetCurrent (fb : Framebuffer) : Option Nat :=
  if ¬fb.mFrameBuffers.isEmpty
      ∧ fb.mTextureSwapChainIndex < fb.mFrameBuffers.length then
    some (fb.mFrameBuffers.getD fb.mTextureSwapChainIndex 0)
  else
    none

/-- The draw-framebuffer binding after `SetCurrent`, given the binding
before it. -/
def SetCurrentBinding (fb : Framebuffer) (boundDrawFb : Nat) : Nat :=
  match SetCurrent fb with
  | some fbo => fbo
  | none => boundDrawFb

end Framebuffer

/-! ### Acquire (for C9)

`xrAcquireSwapchainImage` is wrapped in `OXR(...)`, which aborts the
process on failure; `xrWaitSwapchainImage` is deliberately not: its
result is tested with a plain `if` and only logged with `ALOGE`.  The
runtime's answer to the `j`-th wait call (0-based) is `waitResults j`. -/

inductive XrWaitResult where
  | success
  | timeoutExpired
  | otherFailure
deriving DecidableEq, Repr

/-- The retry loop of `Framebuffer::Acquire`:
`while (result == XR_TIMEOUT_EXPIRED && retries < 3) { wait; retries++ }`.
Returns the final result and the retry count. -/
def xrWaitRetry (waitResults : Nat → XrWaitResult) (result : XrWaitResult)
    (retries : Nat) : XrWaitResult × Nat :=
  if h : result = XrWaitResult.timeoutExpired ∧ retries < 3 then
    xrWaitRetry waitResults (waitResults (retries + 1)) (retries + 1)
  else
    (result, retries)
termination_by 3 - retries
decreasing_by omega

/-- Observable outcome of `Framebuffer::Acquire`. -/
structure AcquireOutcome where
  aborted : Bool
  waitCalls : Nat
  finalResult : XrWaitResult
  failureLogged : Bool
  timeoutNs : Nat
deriving DecidableEq, Repr

namespace Framebuffer

/-- `Framebuffer::Acquire`: acquire the next image (fatal on failure via
`OXR`), then wait on it with a 1-second timeout, retrying up to 3 more
times on `XR_TIMEOUT_EXPIRED`; any final non-success is logged and the
function returns normally. -/
def Acquire (acquireOk : Bool) (waitResults : Nat → XrWaitResult) : AcquireOutcome :=
  if !acquireOk then
    { aborted := true, waitCalls := 0, finalResult := XrWaitResult.otherFailure,
      failureLogged := false, timeoutNs := 1000000000 }
  else
    let result := waitResults 0
    let rr := xrWaitRetry waitResults result 0
    { aborted := false, waitCalls := rr.2 + 1, finalResult := rr.1,
      failureLogged := rr.1 != XrWaitResult.success, timeoutNs := 1000000000 }

end Framebuffer

/-! ### Resolve (for C6)

A small GL state: framebuffer-object attachments, and the contents of
2D textures, color renderbuffers and depth renderbuffers (a depth value
of `none` means invalidated).  `ResolveEnv` supplies the GL name
`glGenFramebuffers` hands out for the temporary resolve target and the
two `glCheckFramebufferStatus` answers. -/

structure FboAttachment where
  colorRb : Option Nat := none
  colorTex : Option Nat := none
  depthRb : Option Nat := none
deriving DecidableEq, Repr, Inhabited

structure GlContents where
  fboAttachments : Nat → FboAttachment
  texColor : Nat → Nat
  rbColor : Nat → Nat
  rbDepth : Nat → Option Nat

structure ResolveEnv where
  tempFboId : Nat
  tempFboComplete : Bool
  srcFboComplete : Bool
deriving DecidableEq, Repr

namespace Framebuffer

/-- `Framebuffer::Resolve`: when multisampled and not multiview, create a
temporary framebuffer, attach the swapchain image at the currently
acquired index (`mColorSwapChainImages[mTextureSwapChainIndex]`) as its
color attachment, verify both targets are complete (else delete the temp
target and return with no blit), blit `GL_COLOR_BUFFER_BIT` from
`mFrameBuffers[mTextureSwapChainIndex]` into the temporary target,
invalidate the read framebuffer's `GL_DEPTH_ATTACHMENT`, and delete the
temporary framebuffer.  Deleting a framebuffer object resets its
attachment record; blitting only `GL_COLOR_BUFFER_BIT` copies the read
color attachment's contents into the draw color attachment and touches
nothing else.  Otherwise (not multisampled, or multiview) do nothing. -/
def Resolve (fb : Framebuffer) (env : ResolveEnv) (g : GlContents) : GlContents :=
  if 1 < fb.mMultisamples ∧ fb.mUseMultiview = false then
    let msaaFb := fb.mFrameBuffers.getD fb.mTextureSwapChainIndex 0
    let tempFbo := env.tempFboId
    let colorTex := fb.mColorSwapChainImages.getD fb.mTextureSwapChainIndex 0
    -- glGenFramebuffers + glFramebufferTexture2D(swapchain texture)
    let g1 : GlContents := { g with
      fboAttachments := Function.update g.fboAttachments tempFbo
        { colorTex := some colorTex } }
    if env.tempFboComplete = false then
      -- resolve target incomplete: glDeleteFramebuffers(tempFbo), return
      { g1 with fboAttachments := Function.update g1.fboAttachments tempFbo {} }
    else if env.srcFboComplete = false then
      -- MSAA source incomplete before blit: delete temp target, return
      { g1 with fboAttachments := Function.update g1.fboAttachments tempFbo {} }
    else
      -- glBlitFramebuffer(0,0,w,h, 0,0,w,h, GL_COLOR_BUFFER_BIT, GL_NEAREST)
      let readAtt := g1.fboAttachments msaaFb
      let drawAtt := g1.fboAttachments tempFbo
      let srcColor :=
        match readAtt.colorRb with
        | some rb => g1.rbColor rb
        | none =>
          match readAtt.colorTex with
          | some t => g1.texColor t
          | none => 0
      let g2 : GlContents :=
        match drawAtt.colorRb with
        | some rb => { g1 with rbColor := Function.update g1.rbColor rb srcColor }
        | none =>
          match drawAtt.colorTex with
          | some t => { g1 with texColor := Function.update g1.texColor t srcColor }
          | none => g1
      -- glInvalidateFramebuffer(GL_READ_FRAMEBUFFER, GL_DEPTH_ATTACHMENT)
      let g3 : GlContents :=
        match readAtt.depthRb with
        | some rb => { g2 with rbDepth := Function.update g2.rbDepth rb none }
        | none => g2
      -- glDeleteFramebuffers(tempFbo)
      { g3 with fboAttachments := Function.update g3.fboAttachments tempFbo {} }
  else
    g

end Framebuffer

/-- Claim C5: `Framebuffer::Create` with a color format absent from the
session's enumerated swapchain formats returns `false`, creates no
swapchain, and allocates no swap images, depth buffers, framebuffer
objects or MSAA color buffers (starting from a default-constructed
`Framebuffer`, as in `VrApp::Init`). -/
theorem create_unsupported_format_fails (env : GlCreateEnv)
    (colorFormat width height multisamples : Int) (useMultiview : Bool)
    (h : env.supportedFormats.contains colorFormat = false) :
    (Framebuffer.Create env colorFormat width height multisamples useMultiview {}).1
      = false
    ∧ (Framebuffer.Create env colorFormat width height multisamples useMultiview
        {}).2.mColorSwapChain.mHandle = none
    ∧ (Framebuffer.Create env colorFormat width height multisamples useMultiview
        {}).2.mColorSwapChainImages = []
    ∧ (Framebuffer.Create env colorFormat width height multisamples useMultiview
        {}).2.mDepthBuffers = []
    ∧ (Framebuffer.Create env colorFormat width height multisamples useMultiview
        {}).2.mFrameBuffers = []
    ∧ (Framebuffer.Create env colorFormat width height multisamples useMultiview
        {}).2.mMsaaColorBuffers = [] := by
  have h2 : colorFormat ∉ env.supportedFormats := by simpa using h
  cases hu : useMultiview <;>
    cases hp : env.hasMultiviewProc <;>
      cases he : env.extensionsHasMultiview2 <;>
        simp [Framebuffer.Create, h, h2, hp, he]

/-- Witness for C5: format `1234` against a session supporting only
`GL_SRGB8_ALPHA8 = 0x8C43`. -/
theorem create_unsupported_format_fails_witness :
    (Framebuffer.Create
        { hasMultiviewProc := false, extensionsHasMultiview2 := false,
          hasMsaaRenderbufferProc := true, supportedFormats := [35907],
          swapchainHandle := 1, swapchainImages := [11, 12, 13],
          depthIds := fun i => 20 + i, fbIds := fun i => 30 + i,
          msaaIds := fun i => 40 + i, fbStatusComplete := fun _ => true }
        1234 1024 1024 4 false {}).1 = false
    ∧ (Framebuffer.Create
        { hasMultiviewProc := false, extensionsHasMultiview2 := false,
          hasMsaaRenderbufferProc := true, supportedFormats := [35907],
          swapchainHandle := 1, swapchainImages := [11, 12, 13],
          depthIds := fun i => 20 + i, fbIds := fun i => 30 + i,
          msaaIds := fun i => 40 + i, fbStatusComplete := fun _ => true }
        1234 1024 1024 4 false {}).2.mFrameBuffers = [] := by
  have h := create_unsupported_format_fails
      { hasMultiviewProc := false, extensionsHasMultiview2 := false,
        hasMsaaRenderbufferProc := true, supportedFormats := [35907],
        swapchainHandle := 1, swapchainImages := [11, 12, 13],
        depthIds := fun i => 20 + i, fbIds := fun i => 30 + i,
        msaaIds := fun i => 40 + i, fbStatusComplete := fun _ => true }
      1234 1024 1024 4 false (by decide)
  exact ⟨h.1, h.2.2.2.2.1⟩

/-- Claim C6: for a multisampled (`mMultisamples > 1`) non-multiview
framebuffer whose read target at the acquired index carries the MSAA
color renderbuffer and the depth renderbuffer as attachments (as
`Framebuffer::Create` establishes, lines 254-275), a `Resolve` with both
completeness checks passing leaves the swapchain image at the currently
acquired index holding a copy of the MSAA color target's contents, leaves
every other texture and every color renderbuffer unchanged, invalidates
the multisample depth attachment and touches no other depth buffer; and
when `mMultisamples ≤ 1` or multiview is in use, `Resolve` changes
nothing at all. -/
theorem resolve_copies_color_invalidates_depth
    (fb : Framebuffer) (env : ResolveEnv) (g : GlContents)
    (hms : 1 < fb.mMultisamples) (hmv : fb.mUseMultiview = false)
    (htmp : env.tempFboComplete = true) (hsrc : env.srcFboComplete = true)
    (hfresh : env.tempFboId ≠ fb.mFrameBuffers.getD fb.mTextureSwapChainIndex 0)
    (hatt : g.fboAttachments (fb.mFrameBuffers.getD fb.mTextureSwapChainIndex 0)
      = { colorRb := some (fb.mMsaaColorBuffers.getD fb.mTextureSwapChainIndex 0),
          colorTex := none,
          depthRb := some (fb.mDepthBuffers.getD fb.mTextureSwapChainIndex 0) }) :
    (Framebuffer.Resolve fb env g).texColor
        (fb.mColorSwapChainImages.getD fb.mTextureSwapChainIndex 0)
      = g.rbColor (fb.mMsaaColorBuffers.getD fb.mTextureSwapChainIndex 0)
    ∧ (∀ t, t ≠ fb.mColorSwapChainImages.getD fb.mTextureSwapChainIndex 0 →
        (Framebuffer.Resolve fb env g).texColor t = g.texColor t)
    ∧ (Framebuffer.Resolve fb env g).rbDepth
        (fb.mDepthBuffers.getD fb.mTextureSwapChainIndex 0) = none
    ∧ (∀ rb, rb ≠ fb.mDepthBuffers.getD fb.mTextureSwapChainIndex 0 →
        (Framebuffer.Resolve fb env g).rbDepth rb = g.rbDepth rb)
    ∧ (∀ rb, (Framebuffer.Resolve fb env g).rbColor rb = g.rbColor rb)
    ∧ (∀ (fb2 : Framebuffer) (env2 : ResolveEnv) (g2 : GlContents),
        fb2.mMultisamples ≤ 1 ∨ fb2.mUseMultiview = true →
        Framebuffer.Resolve fb2 env2 g2 = g2) := by
  have hnoop : ∀ (fb2 : Framebuffer) (env2 : ResolveEnv) (g2 : GlContents),
      fb2.mMultisamples ≤ 1 ∨ fb2.mUseMultiview = true →
      Framebuffer.Resolve fb2 env2 g2 = g2 := by
    intro fb2 env2 g2 hcase
    unfold Framebuffer.Resolve
    rw [if_neg]
    rintro ⟨hgt, hfalse⟩
    rcases hcase with hle | htrue
    · omega
    · rw [htrue] at hfalse
      cases hfalse
  have hru : Framebuffer.Resolve fb env g
      = (let msaaFb := fb.mFrameBuffers.getD fb.mTextureSwapChainIndex 0
         let tempFbo := env.tempFboId
         let colorTex := fb.mColorSwapChainImages.getD fb.mTextureSwapChainIndex 0
         let g1 : GlContents := { g with
           fboAttachments := Function.update g.fboAttachments tempFbo
             { colorTex := some colorTex } }
         let readAtt := g1.fboAttachments msaaFb
         let drawAtt := g1.fboAttachments tempFbo
         let srcColor :=
           match readAtt.colorRb with
           | some rb => g1.rbColor rb
           | none =>
             match readAtt.colorTex with
             | some t => g1.texColor t
             | none => 0
         let g2 : GlContents :=
           match drawAtt.colorRb with
           | some rb => { g1 with rbColor := Function.update g1.rbColor rb srcColor }
           | none =>
             match drawAtt.colorTex with
             | some t => { g1 with texColor := Function.update g1.texColor t srcColor }
             | none => g1
         let g3 : GlContents :=
           match readAtt.depthRb with
           | some rb => { g2 with rbDepth := Function.update g2.rbDepth rb none }
           | none => g2
         { g3 with fboAttachments := Function.update g3.fboAttachments tempFbo {} }) := by
    unfold Framebuffer.Resolve
    rw [if_pos ⟨hms, hmv⟩, if_neg (by rw [htmp]; intro hc; cases hc),
        if_neg (by rw [hsrc]; intro hc; cases hc)]
  have hread : (Function.update g.fboAttachments env.tempFboId
        { colorRb := none,
          colorTex := some (fb.mColorSwapChainImages.getD fb.mTextureSwapChainIndex 0),
          depthRb := none })
        (fb.mFrameBuffers.getD fb.mTextureSwapChainIndex 0)
      = { colorRb := some (fb.mMsaaColorBuffers.getD fb.mTextureSwapChainIndex 0),
          colorTex := none,
          depthRb := some (fb.mDepthBuffers.getD fb.mTextureSwapChainIndex 0) } := by
    rw [Function.update_noteq (Ne.symm hfresh)]
    exact hatt
  have hdraw : (Function.update g.fboAttachments env.tempFboId
        { colorRb := none,
          colorTex := some (fb.mColorSwapChainImages.getD fb.mTextureSwapChainIndex 0),
          depthRb := none }) env.tempFboId
      = { colorRb := none,
          colorTex := some (fb.mColorSwapChainImages.getD fb.mTextureSwapChainIndex 0),
          depthRb := none } :=
    Function.update_same ..
  rw [hru]
  simp only [hread, hdraw]
  refine ⟨?_, ?_, ?_, ?_, ?_, hnoop⟩
  · simp [Function.update_same]
  · intro t ht
    simp [Function.update_noteq ht]
  · simp [Function.update_same]
  · intro rb hrb
    simp [Function.update_noteq hrb]
  · intro rb
    simp

/-- Concrete state for the C6 witness: one swap image (texture 7), one
target (framebuffer object 3) carrying MSAA color renderbuffer 9
(contents 42) and depth renderbuffer 5. -/
def resolveWitnessFb : Framebuffer :=
  { mWidth := 8, mHeight := 8, mMultisamples := 4, mUseMultiview := false,
    mTextureSwapChainLength := 1, mTextureSwapChainIndex := 0,
    mColorSwapChain := { mHandle := some 1, mWidth := 8, mHeight := 8 },
    mColorSwapChainImages := [7], mDepthBuffers := [5],
    mFrameBuffers := [3], mMsaaColorBuffers := [9] }

def resolveWitnessEnv : ResolveEnv :=
  { tempFboId := 100, tempFboComplete := true, srcFboComplete := true }

def resolveWitnessGl : GlContents :=
  { fboAttachments := fun n =>
      if n = 3 then { colorRb := some 9, colorTex := none, depthRb := some 5 }
      else {},
    texColor := fun _ => 0,
    rbColor := fun n => if n = 9 then 42 else 0,
    rbDepth := fun _ => some 1 }

/-- Witness for C6 on the concrete state above: the swap image receives
the MSAA color contents (42), the depth renderbuffer is invalidated,
other depth buffers are untouched, and a non-multisampled `Resolve`
changes nothing. -/
theorem resolve_copies_color_invalidates_depth_witness :
    (Framebuffer.Resolve resolveWitnessFb resolveWitnessEnv resolveWitnessGl).texColor 7
      = resolveWitnessGl.rbColor 9
    ∧ (Framebuffer.Resolve resolveWitnessFb resolveWitnessEnv resolveWitnessGl).rbDepth 5
      = none
    ∧ (Framebuffer.Resolve resolveWitnessFb resolveWitnessEnv resolveWitnessGl).rbDepth 6
      = resolveWitnessGl.rbDepth 6
    ∧ Framebuffer.Resolve { resolveWitnessFb with mMultisamples := 1 }
        resolveWitnessEnv resolveWitnessGl = resolveWitnessGl := by
  have h := resolve_copies_color_invalidates_depth resolveWitnessFb resolveWitnessEnv
      resolveWitnessGl (by decide) (by decide) (by decide) (by decide) (by decide)
      (by decide)
  exact ⟨h.1, h.2.2.1, h.2.2.2.1 6 (by decide),
         h.2.2.2.2.2 { resolveWitnessFb with mMultisamples := 1 }
           resolveWitnessEnv resolveWitnessGl (Or.inl (by decide))⟩

/-- The retry loop performs at most 3 retries. -/
lemma xrWaitRetry_le (w : Nat → XrWaitResult) :
    ∀ (fuel retries : Nat) (result : XrWaitResult), 3 - retries ≤ fuel →
      retries ≤ 3 → (xrWaitRetry w result retries).2 ≤ 3 := by
  intro fuel
  induction fuel with
  | zero =>
    intro retries result hf hr
    rw [xrWaitRetry]
    by_cases h : result = XrWaitResult.timeoutExpired ∧ retries < 3
    · omega
    · rw [dif_neg h]
      exact hr
  | succ fuel ih =>
    intro retries result hf hr
    rw [xrWaitRetry]
    by_cases h : result = XrWaitResult.timeoutExpired ∧ retries < 3
    · rw [dif_pos h]
      exact ih (retries + 1) _ (by omega) (by omega)
    · rw [dif_neg h]
      exact hr

/-- Claim C9: `Framebuffer::Acquire` waits on the acquired swap image
with a 1-second (`10^9` ns) timeout and retries the wait at most 3 more
times on timeout (so at most 4 wait calls); if the wait still has not
succeeded it logs the failure and returns normally without aborting the
process. -/
theorem acquire_bounded_retries_nonfatal (waitResults : Nat → XrWaitResult) :
    (Framebuffer.Acquire true waitResults).waitCalls ≤ 4
    ∧ (Framebuffer.Acquire true waitResults).aborted = false
    ∧ (Framebuffer.Acquire true waitResults).timeoutNs = 1000000000
    ∧ ((Framebuffer.Acquire true waitResults).finalResult ≠ XrWaitResult.success →
        (Framebuffer.Acquire true waitResults).failureLogged = true)
    ∧ ((∀ j, j ≤ 3 → waitResults j = XrWaitResult.timeoutExpired) →
        (Framebuffer.Acquire true waitResults).waitCalls = 4
        ∧ (Framebuffer.Acquire true waitResults).finalResult
            = XrWaitResult.timeoutExpired
        ∧ (Framebuffer.Acquire true waitResults).failureLogged = true
        ∧ (Framebuffer.Acquire true waitResults).aborted = false) := by
  have hacq : Framebuffer.Acquire true waitResults
      = { aborted := false,
          waitCalls := (xrWaitRetry waitResults (waitResults 0) 0).2 + 1,
          finalResult := (xrWaitRetry waitResults (waitResults 0) 0).1,
          failureLogged :=
            (xrWaitRetry waitResults (waitResults 0) 0).1 != XrWaitResult.success,
          timeoutNs := 1000000000 } := by
    simp [Framebuffer.Acquire]
  rw [hacq]
  refine ⟨?_, rfl, rfl, ?_, ?_⟩
  · have := xrWaitRetry_le waitResults 3 0 (waitResults 0) (by omega) (by omega)
    simpa using by omega
  · intro hne
    simp only [bne_iff_ne, ne_eq]
    simpa using hne
  · intro hto
    have hrr : xrWaitRetry waitResults (waitResults 0) 0
        = (XrWaitResult.timeoutExpired, 3) := by
      rw [hto 0 (by omega)]
      rw [xrWaitRetry, dif_pos ⟨rfl, by omega⟩, hto 1 (by omega)]
      rw [xrWaitRetry, dif_pos ⟨rfl, by omega⟩, hto 2 (by omega)]
      rw [xrWaitRetry, dif_pos ⟨rfl, by omega⟩, hto 3 (by omega)]
      rw [xrWaitRetry, dif_neg (by omega)]
    rw [hrr]
    refine ⟨rfl, rfl, by decide, rfl⟩

/-- Witness for C9: every wait call times out. -/
theorem acquire_bounded_retries_nonfatal_witness :
    (Framebuffer.Acquire true (fun _ => XrWaitResult.timeoutExpired)).waitCalls = 4
    ∧ (Framebuffer.Acquire true (fun _ => XrWaitResult.timeoutExpired)).finalResult
        = XrWaitResult.timeoutExpired
    ∧ (Framebuffer.Acquire true (fun _ => XrWaitResult.timeoutExpired)).failureLogged
        = true
    ∧ (Framebuffer.Acquire true (fun _ => XrWaitResult.timeoutExpired)).aborted
        = false
    ∧ (Framebuffer.Acquire true (fun _ => XrWaitResult.timeoutExpired)).timeoutNs
        = 1000000000 :=
  ⟨((acquire_bounded_retries_nonfatal (fun _ => XrWaitResult.timeoutExpired)).2.2.2.2
      (fun _ _ => rfl)).1,
   ((acquire_bounded_retries_nonfatal (fun _ => XrWaitResult.timeoutExpired)).2.2.2.2
      (fun _ _ => rfl)).2.1,
   ((acquire_bounded_retries_nonfatal (fun _ => XrWaitResult.timeoutExpired)).2.2.2.2
      (fun _ _ => rfl)).2.2.1,
   ((acquire_bounded_retries_nonfatal (fun _ => XrWaitResult.timeoutExpired)).2.2.2.2
      (fun _ _ => rfl)).2.2.2,
   (acquire_bounded_retries_nonfatal (fun _ => XrWaitResult.timeoutExpired)).2.2.1⟩

/-- Claim C10: `Framebuffer::SetCurrent` never indexes out of bounds:
when the framebuffer list is empty or the current swapchain image index
is not strictly below the number of framebuffer objects, it performs no
bind at all and the draw-framebuffer binding is unchanged; otherwise it
binds exactly the framebuffer object at the currently acquired index.
In particular after `Framebuffer::Destroy` (which clears the list) it
performs no bind. -/
theorem setCurrent_in_bounds (fb : Framebuffer) (boundDrawFb : Nat) :
    ((fb.mFrameBuffers = [] ∨ fb.mFrameBuffers.length ≤ fb.mTextureSwapChainIndex) →
      Framebuffer.SetCurrent fb = none
      ∧ Framebuffer.SetCurrentBinding fb boundDrawFb = boundDrawFb)
    ∧ (fb.mTextureSwapChainIndex < fb.mFrameBuffers.length →
      Framebuffer.SetCurrent fb
        = some (fb.mFrameBuffers.getD fb.mTextureSwapChainIndex 0))
    ∧ Framebuffer.SetCurrent (Framebuffer.Destroy fb) = none := by
  refine ⟨?_, ?_, ?_⟩
  · intro hcase
    have hnone : Framebuffer.SetCurrent fb = none := by
      unfold Framebuffer.SetCurrent
      rw [if_neg]
      rintro ⟨hne, hlt⟩
      rcases hcase with hemp | hge
      · rw [hemp] at hne
        simp at hne
      · omega
    exact ⟨hnone, by simp [Framebuffer.SetCurrentBinding, hnone]⟩
  · intro hlt
    unfold Framebuffer.SetCurrent
    rw [if_pos]
    constructor
    · intro hemp
      rw [List.isEmpty_iff] at hemp
      rw [hemp] at hlt
      simp at hlt
    · exact hlt
  · unfold Framebuffer.SetCurrent
    rw [if_neg]
    rintro ⟨hne, hlt⟩
    simp [Framebuffer.Destroy] at hlt

/-- Witness for C10: in-range bind at index 1, no bind on an
out-of-range index, and no bind after `Destroy`. -/
theorem setCurrent_in_bounds_witness :
    Framebuffer.SetCurrent
        { resolveWitnessFb with mFrameBuffers := [3, 4], mTextureSwapChainIndex := 1 }
      = some 4
    ∧ Framebuffer.SetCurrent
        { resolveWitnessFb with mFrameBuffers := [3, 4], mTextureSwapChainIndex := 2 }
      = none
    ∧ Framebuffer.SetCurrentBinding
        { resolveWitnessFb with mFrameBuffers := [3, 4], mTextureSwapChainIndex := 2 } 0
      = 0
    ∧ Framebuffer.SetCurrent (Framebuffer.Destroy resolveWitnessFb) = none := by
  have h1 := setCurrent_in_bounds
      { resolveWitnessFb with mFrameBuffers := [3, 4], mTextureSwapChainIndex := 1 } 0
  have h2 := setCurrent_in_bounds
      { resolveWitnessFb with mFrameBuffers := [3, 4], mTextureSwapChainIndex := 2 } 0
  have h3 := setCurrent_in_bounds resolveWitnessFb 0
  refine ⟨?_, (h2.1 (Or.inr (by decide))).1, (h2.1 (Or.inr (by decide))).2, h3.2.2⟩
  have := h1.2.1 (by decide)
  simpa using this

/-! ## InputStateFrame preferred-hand selection
(`src/app/src/main/cpp/input/VrController.cpp`, `SyncHandPoses`)

Only the members the selection reads are modelled; the two-element C++
arrays indexed by `ControllerIndex` become functions from
`ControllerIndex`.  The per-hand position-valid bit of the located pose
(`XR_SPACE_LOCATION_POSITION_VALID_BIT`) is the environment input. -/

inductive ControllerIndex where
  | LEFT_CONTROLLER
  | RIGHT_CONTROLLER
deriving DecidableEq, Repr, Fintype

structure XrActionStateBoolean where
  currentState : Bool := false
  changedSinceLastSync : Bool := false
deriving DecidableEq, Repr, Fintype

structure InputStateFrame where
  /-- sticky default: right hand (`mPreferredHand = RIGHT_CONTROLLER`). -/
  mPreferredHand : ControllerIndex := ControllerIndex.RIGHT_CONTROLLER
  mIsHandActive : ControllerIndex → Bool := fun _ => false
  mIndexTriggerState : ControllerIndex → XrActionStateBoolean := fun _ => {}
deriving DecidableEq, Fintype

/-- `InputStateFrame::SyncHandPoses` (state-relevant part): first each
hand's active flag is and-ed with its pose's position validity; then the
preferred hand is updated: if exactly one hand is active prefer it; if
both are active prefer the left hand if its trigger changed this sync
and is pressed, else the right hand under the same test, else keep the
current preference; if neither is active keep the current preference. -/
def SyncHandPoses (positionValid : ControllerIndex → Bool)
    (s : InputStateFrame) : InputStateFrame :=
  let s := { s with
    mIsHandActive := fun hand => s.mIsHandActive hand && positionValid hand }
  let leftActive := s.mIsHandActive ControllerIndex.LEFT_CONTROLLER
  let rightActive := s.mIsHandActive ControllerIndex.RIGHT_CONTROLLER
  if leftActive && !rightActive then
    { s with mPreferredHand := ControllerIndex.LEFT_CONTROLLER }
  else if !leftActive && rightActive then
    { s with mPreferredHand := ControllerIndex.RIGHT_CONTROLLER }
  else if leftActive && rightActive then
    if (s.mIndexTriggerState ControllerIndex.LEFT_CONTROLLER).changedSinceLastSync
        && (s.mIndexTriggerState ControllerIndex.LEFT_CONTROLLER).currentState then
      { s with mPreferredHand := ControllerIndex.LEFT_CONTROLLER }
    else if (s.mIndexTriggerState ControllerIndex.RIGHT_CONTROLLER).changedSinceLastSync
        && (s.mIndexTriggerState ControllerIndex.RIGHT_CONTROLLER).currentState then
      { s with mPreferredHand := ControllerIndex.RIGHT_CONTROLLER }
    else
      s
  else
    s

/-- Counterexample to C7 as stated: both hands active and BOTH triggers
just transitioned to pressed this tick — not "exactly one", so per the
claim the previous preference (right) should be retained — but the code
tests the left hand first and returns the left hand. -/
theorem preferredHand_both_transitioned_counterexample :
    (SyncHandPoses (fun _ => true)
        { mPreferredHand := ControllerIndex.RIGHT_CONTROLLER,
          mIsHandActive := fun _ => true,
          mIndexTriggerState :=
            fun _ => { currentState := true, changedSinceLastSync := true } }
      ).mPreferredHand = ControllerIndex.LEFT_CONTROLLER
    ∧ ControllerIndex.LEFT_CONTROLLER ≠ ControllerIndex.RIGHT_CONTROLLER := by
  decide

set_option maxRecDepth 8000 in
/-- Claim C7 (amended): preferred-hand selection after each pose sync
satisfies: if exactly one hand is active, the preferred hand is that
hand; if both hands are active and exactly one hand's trigger
transitioned to pressed this tick, the preferred hand is that hand; if
both hands are active and BOTH triggers transitioned to pressed this
tick, the preferred hand is the left hand (the left-hand test comes
first); otherwise (both active with no trigger transition, or both
hands inactive) the previous preference is retained; the initial default
is the right hand.  "Active" is the post-sync activity
(`mIsHandActive && positionValid`), which is what the updated frame
stores. -/
theorem preferredHand_selection_amended :
    (∀ (s : InputStateFrame) (positionValid : ControllerIndex → Bool),
      (SyncHandPoses positionValid s).mIsHandActive ControllerIndex.LEFT_CONTROLLER
          = true →
        (SyncHandPoses positionValid s).mIsHandActive ControllerIndex.RIGHT_CONTROLLER
          = false →
        (SyncHandPoses positionValid s).mPreferredHand
          = ControllerIndex.LEFT_CONTROLLER)
    ∧ (∀ (s : InputStateFrame) (positionValid : ControllerIndex → Bool),
      (SyncHandPoses positionValid s).mIsHandActive ControllerIndex.LEFT_CONTROLLER
          = false →
        (SyncHandPoses positionValid s).mIsHandActive ControllerIndex.RIGHT_CONTROLLER
          = true →
        (SyncHandPoses positionValid s).mPreferredHand
          = ControllerIndex.RIGHT_CONTROLLER)
    ∧ (∀ (s : InputStateFrame) (positionValid : ControllerIndex → Bool),
      (SyncHandPoses positionValid s).mIsHandActive ControllerIndex.LEFT_CONTROLLER
          = true →
        (SyncHandPoses positionValid s).mIsHandActive ControllerIndex.RIGHT_CONTROLLER
          = true →
        ((s.mIndexTriggerState ControllerIndex.LEFT_CONTROLLER).changedSinceLastSync
            && (s.mIndexTriggerState ControllerIndex.LEFT_CONTROLLER).currentState)
          = true →
        (SyncHandPoses positionValid s).mPreferredHand
          = ControllerIndex.LEFT_CONTROLLER)
    ∧ (∀ (s : InputStateFrame) (positionValid : ControllerIndex → Bool),
      (SyncHandPoses positionValid s).mIsHandActive ControllerIndex.LEFT_CONTROLLER
          = true →
        (SyncHandPoses positionValid s).mIsHandActive ControllerIndex.RIGHT_CONTROLLER
          = true →
        ((s.mIndexTriggerState ControllerIndex.LEFT_CONTROLLER).changedSinceLastSync
            && (s.mIndexTriggerState ControllerIndex.LEFT_CONTROLLER).currentState)
          = false →
        ((s.mIndexTriggerState ControllerIndex.RIGHT_CONTROLLER).changedSinceLastSync
            && (s.mIndexTriggerState ControllerIndex.RIGHT_CONTROLLER).currentState)
          = true →
        (SyncHandPoses positionValid s).mPreferredHand
          = ControllerIndex.RIGHT_CONTROLLER)
    ∧ (∀ (s : InputStateFrame) (positionValid : ControllerIndex → Bool),
      (SyncHandPoses positionValid s).mIsHandActive ControllerIndex.LEFT_CONTROLLER
          = true →
        (SyncHandPoses positionValid s).mIsHandActive ControllerIndex.RIGHT_CONTROLLER
          = true →
        ((s.mIndexTriggerState ControllerIndex.LEFT_CONTROLLER).changedSinceLastSync
            && (s.mIndexTriggerState ControllerIndex.LEFT_CONTROLLER).currentState)
          = false →
        ((s.mIndexTriggerState ControllerIndex.RIGHT_CONTROLLER).changedSinceLastSync
            && (s.mIndexTriggerState ControllerIndex.RIGHT_CONTROLLER).currentState)
          = false →
        (SyncHandPoses positionValid s).mPreferredHand = s.mPreferredHand)
    ∧ (∀ (s : InputStateFrame) (positionValid : ControllerIndex → Bool),
      (SyncHandPoses positionValid s).mIsHandActive ControllerIndex.LEFT_CONTROLLER
          = false →
        (SyncHandPoses positionValid s).mIsHandActive ControllerIndex.RIGHT_CONTROLLER
          = false →
        (SyncHandPoses positionValid s).mPreferredHand = s.mPreferredHand)
    ∧ ({} : InputStateFrame).mPreferredHand = ControllerIndex.RIGHT_CONTROLLER := by
  refine ⟨?_, ?_, ?_, ?_, ?_, ?_, ?_⟩ <;> decide

/-- Witness for (amended) C7 on the spec's three scenarios: left
active/right inactive prefers left; both active with the right trigger
just transitioned to pressed and the left trigger unchanged-pressed
prefers right; both inactive after previously preferring left keeps
left. -/
theorem preferredHand_selection_amended_witness :
    (SyncHandPoses (fun _ => true)
        { mPreferredHand := ControllerIndex.RIGHT_CONTROLLER,
          mIsHandActive := fun h => h == ControllerIndex.LEFT_CONTROLLER,
          mIndexTriggerState := fun _ => {} }).mPreferredHand
      = ControllerIndex.LEFT_CONTROLLER
    ∧ (SyncHandPoses (fun _ => true)
        { mPreferredHand := ControllerIndex.LEFT_CONTROLLER,
          mIsHandActive := fun _ => true,
          mIndexTriggerState := fun h =>
            if h = ControllerIndex.RIGHT_CONTROLLER then
              { currentState := true, changedSinceLastSync := true }
            else
              { currentState := true, changedSinceLastSync := false } }).mPreferredHand
      = ControllerIndex.RIGHT_CONTROLLER
    ∧ (SyncHandPoses (fun _ => false)
        { mPreferredHand := ControllerIndex.LEFT_CONTROLLER,
          mIsHandActive := fun _ => true,
          mIndexTriggerState := fun _ => {} }).mPreferredHand
      = ControllerIndex.LEFT_CONTROLLER := by
  refine ⟨?_, ?_, ?_⟩
  · exact preferredHand_selection_amended.1 _ _ (by decide) (by decide)
  · exact preferredHand_selection_amended.2.2.2.1 _ _ (by decide) (by decide)
      (by decide) (by decide)
  · exact preferredHand_selection_amended.2.2.2.2.2.1 _ _ (by decide) (by decide)

/-! ## OpenXr initialization (`src/unnamed/part_000`, OpenXR.cpp)

Each `InitX` step is a function of an environment record carrying the
results of the runtime/driver calls it makes, returning the `int32_t`
code of the C++ function (0 on success, a negative code per failing
call).  `OpenXr::Init` sequences them and performs the teardown calls of
its error paths; its observable outcome is the returned code, the list
of destroy calls made before returning, and whether the EGL context was
created (`Init` itself never destroys it — only `Shutdown` does).
`std::make_unique<EglContext>()` never returns null (the EGL context
constructor logs and shuts down internally on failure, but the pointer
stays non-null), so the `!mEglContext` check is dead and the `-7`
graphics-context branch is unreachable. -/

def REQUIRED_EXTENSIONS : List String :=
  ["XR_KHR_opengl_es_enable",
   "XR_EXT_performance_settings",
   "XR_KHR_android_thread_settings"]

def OPTIONAL_EXTENSIONS : List String :=
  ["XR_FB_passthrough",
   "XR_META_performance_metrics",
   "XR_FB_composition_layer_settings",
   "XR_EXT_hand_tracking",
   "XR_FB_touch_controller_pro",
   "XR_KHR_visibility_mask"]

/-- `XR_VIEW_CONFIGURATION_TYPE_PRIMARY_STEREO`. -/
def VIEW_CONFIG_TYPE : Nat := 2

/-- `XR_REFERENCE_SPACE_TYPE_STAGE`. -/
def XR_REFERENCE_SPACE_TYPE_STAGE : Nat := 3

structure LoaderEnv where
  /-- `xrGetInstanceProcAddr("xrInitializeLoaderKHR")` succeeded with a
  non-null pointer. -/
  getLoaderProcOk : Bool
  /-- `xrInitializeLoaderKHR` succeeded. -/
  loaderInitOk : Bool
deriving DecidableEq, Repr

structure InstanceEnv where
  /-- first `xrEnumerateInstanceExtensionProperties` (count query) succeeded. -/
  enumerateCountOk : Bool
  /-- the runtime's available extension names (`extCount` = length). -/
  availableExtensions : List String
  /-- second `xrEnumerateInstanceExtensionProperties` succeeded. -/
  enumeratePropsOk : Bool
  /-- `xrCreateInstance` succeeded. -/
  createInstanceOk : Bool
deriving DecidableEq, Repr

structure SystemEnv where
  getSystemOk : Bool
  getPropsOk : Bool
deriving DecidableEq, Repr

structure SessionEnv where
  /-- `xrGetInstanceProcAddr("xrGetOpenGLESGraphicsRequirementsKHR")`. -/
  getProcOk : Bool
  /-- `xrGetOpenGLESGraphicsRequirementsKHR`. -/
  getRequirementsOk : Bool
  /-- the GL version lies within `[minApiVersionSupported, maxApiVersionSupported]`. -/
  glVersionOk : Bool
  /-- `xrCreateSession`. -/
  createSessionOk : Bool
deriving DecidableEq, Repr

structure ViewConfigEnv where
  enumConfigCountOk : Bool
  viewConfigTypes : List Nat
  enumConfigTypesOk : Bool
  getPropsOk : Bool
  enumViewsCountOk : Bool
  enumViewsOk : Bool
deriving DecidableEq, Repr

structure SpacesEnv where
  enumSpacesCountOk : Bool
  spaceTypes : List Nat
  enumSpacesOk : Bool
  createViewOk : Bool
  createHeadOk : Bool
  createLocalOk : Bool
  createForwardOk : Bool
  createStageOk : Bool
deriving DecidableEq, Repr

namespace OpenXr

/-- `OpenXr::InitLoader`: -1 if the loader entry point cannot be
resolved, -2 if `xrInitializeLoaderKHR` fails. -/
def InitLoader (env : LoaderEnv) : Int :=
  if !env.getLoaderProcOk then -1
  else if !env.loaderInitOk then -2
  else 0

/-- `OpenXr::InitInstance`: -1 on count-query failure or zero available
extensions, -2 on the property query failure, -3 when a required
extension is missing, -4 when `xrCreateInstance` fails; on success also
the enabled-extension list (all required, then each available optional). -/
def InitInstance (env : InstanceEnv) : Int × List String :=
  if !env.enumerateCountOk then (-1, [])
  else if env.availableExtensions.length = 0 then (-1, [])
  else if !env.enumeratePropsOk then (-2, [])
  else if REQUIRED_EXTENSIONS.any (fun r => !(env.availableExtensions.contains r)) then
    (-3, [])
  else if !env.createInstanceOk then (-4, [])
  else
    (0, REQUIRED_EXTENSIONS
        ++ OPTIONAL_EXTENSIONS.filter (fun o => env.availableExtensions.contains o))

/-- `OpenXr::InitSystem`: -1 if `xrGetSystem` fails, -2 if
`xrGetSystemProperties` fails. -/
def InitSystem (env : SystemEnv) : Int :=
  if !env.getSystemOk then -1
  else if !env.getPropsOk then -2
  else 0

/-- `OpenXr::InitSession`: -1 and -2 for the graphics-requirements
lookup, -3 when the GL version is out of range, -4 when
`xrCreateSession` fails. -/
def InitSession (env : SessionEnv) : Int :=
  if !env.getProcOk then -1
  else if !env.getRequirementsOk then -2
  else if !env.glVersionOk then -3
  else if !env.createSessionOk then -4
  else 0

/-- `OpenXr::InitViewConfig`: -1, -2 and -3 for the enumeration of view
configurations, -4 when PRIMARY_STEREO is absent, -5 for the property
query, -6 and -7 for the per-view enumeration. -/
def InitViewConfig (env : ViewConfigEnv) : Int :=
  if !env.enumConfigCountOk then -1
  else if env.viewConfigTypes.length = 0 then -2
  else if !env.enumConfigTypesOk then -3
  else if !(env.viewConfigTypes.contains VIEW_CONFIG_TYPE) then -4
  else if !env.getPropsOk then -5
  else if !env.enumViewsCountOk then -6
  else if !env.enumViewsOk then -7
  else 0

/-- `OpenXr::InitSpaces`: -1, -2 and -3 for the reference-space
enumeration, -4 to -7 for the View, Head, Local and ForwardDirection
space creations, -8 for the Stage space (attempted only when the
runtime lists STAGE). -/
def InitSpaces (env : SpacesEnv) : Int :=
  if !env.enumSpacesCountOk then -1
  else if env.spaceTypes.length = 0 then -2
  else if !env.enumSpacesOk then -3
  else if !env.createViewOk then -4
  else if !env.createHeadOk then -5
  else if !env.createLocalOk then -6
  else if !env.createForwardOk then -7
  else if env.spaceTypes.contains XR_REFERENCE_SPACE_TYPE_STAGE
      && !env.createStageOk then -8
  else 0

end OpenXr

inductive TeardownCall where
  | destroySession
  | destroyInstance
deriving DecidableEq, Repr

structure OpenXrInitEnv where
  loader : LoaderEnv
  instanceEnv : InstanceEnv
  system : SystemEnv
  session : SessionEnv
  viewConfig : ViewConfigEnv
  spaces : SpacesEnv
deriving DecidableEq, Repr

structure OpenXrInitResult where
  code : Int
  teardown : List TeardownCall
  eglContextCreated : Bool
deriving DecidableEq, Repr

namespace OpenXr

/-- `OpenXr::Init`: the strict ordered sequence loader → instance →
system → EGL-context → session → view-config → spaces.  Error paths
return the failing step's own code after the destroy calls shown; the
EGL context, created before the session, is never destroyed here (only
`Shutdown` clears it), and because `std::make_unique` is never null the
`-7` graphics-context branch cannot be taken. -/
def Init (env : OpenXrInitEnv) : OpenXrInitResult :=
  let r1 := InitLoader env.loader
  if r1 < 0 then
    { code := r1, teardown := [], eglContextCreated := false }
  else
    let r2 := (InitInstance env.instanceEnv).1
    if r2 < 0 then
      { code := r2, teardown := [], eglContextCreated := false }
    else
      let r3 := InitSystem env.system
      if r3 < 0 then
        { code := r3, teardown := [TeardownCall.destroyInstance],
          eglContextCreated := false }
      else
        -- mEglContext = std::make_unique<EglContext>(); the null check
        -- `if (!mEglContext)` is always false.
        let eglContextNull := false
        if eglContextNull then
          { code := -7, teardown := [TeardownCall.destroyInstance],
            eglContextCreated := true }
        else
          let r5 := InitSession env.session
          if r5 < 0 then
            { code := r5, teardown := [TeardownCall.destroyInstance],
              eglContextCreated := true }
          else
            let r6 := InitViewConfig env.viewConfig
            if r6 < 0 then
              { code := r6,
                teardown := [TeardownCall.destroySession,
                             TeardownCall.destroyInstance],
                eglContextCreated := true }
            else
              let r7 := InitSpaces env.spaces
              if r7 < 0 then
                { code := r7,
                  teardown := [TeardownCall.destroySession,
                               TeardownCall.destroyInstance],
                  eglContextCreated := true }
              else
                { code := 0, teardown := [], eglContextCreated := true }

end OpenXr

/-- Environment in which every initialization step succeeds (the runtime
offers all required extensions, a stereo view configuration, and VIEW,
LOCAL and STAGE reference spaces). -/
def initEnvAllOk : OpenXrInitEnv :=
  { loader := { getLoaderProcOk := true, loaderInitOk := true },
    instanceEnv := { enumerateCountOk := true,
                     availableExtensions := REQUIRED_EXTENSIONS,
                     enumeratePropsOk := true, createInstanceOk := true },
    system := { getSystemOk := true, getPropsOk := true },
    session := { getProcOk := true, getRequirementsOk := true,
                 glVersionOk := true, createSessionOk := true },
    viewConfig := { enumConfigCountOk := true, viewConfigTypes := [1, 2],
                    enumConfigTypesOk := true, getPropsOk := true,
                    enumViewsCountOk := true, enumViewsOk := true },
    spaces := { enumSpacesCountOk := true, spaceTypes := [1, 2, 3],
                enumSpacesOk := true, createViewOk := true,
                createHeadOk := true, createLocalOk := true,
                createForwardOk := true, createStageOk := true } }

/-- All steps fine except the very first loader call. -/
def initEnvLoaderFail : OpenXrInitEnv :=
  { initEnvAllOk with loader := { getLoaderProcOk := false, loaderInitOk := true } }

/-- Loader and instance fine, `xrGetSystem` fails. -/
def initEnvSystemFail : OpenXrInitEnv :=
  { initEnvAllOk with system := { getSystemOk := false, getPropsOk := true } }

/-- Counterexample to C8 as stated: two different failing steps — the
loader-entry-point lookup, and the system query (with the loader and
instance steps succeeding) — both make `OpenXr::Init` return the same
code `-1`, so the error code is not distinct per failing step. -/
theorem initErrorCodes_not_distinct_counterexample :
    OpenXr.InitLoader initEnvLoaderFail.loader = -1
    ∧ OpenXr.InitLoader initEnvSystemFail.loader = 0
    ∧ OpenXr.InitSystem initEnvSystemFail.system = -1
    ∧ (OpenXr.Init initEnvLoaderFail).code = -1
    ∧ (OpenXr.Init initEnvSystemFail).code = -1 := by
  decide

/-- Claim C8 (amended): every failing step of the ordered initialization
sequence makes `Init` return that step's own negative code — the codes
identify the failing call within a step but are reused across steps (so
the return value alone does not identify which step failed, e.g. both a
loader failure and a system-query failure yield -1); a graphics-context
creation failure is never detected (`std::make_unique` is non-null, so
that branch is dead); and before returning, `Init` destroys — in reverse
order of construction — the session (when it was created) and the
instance, but never the graphics context, which stays alive for
`Shutdown`. -/
theorem openXrInit_step_codes_and_teardown (env : OpenXrInitEnv) :
    (OpenXr.InitLoader env.loader < 0 →
      OpenXr.Init env
        = { code := OpenXr.InitLoader env.loader, teardown := [],
            eglContextCreated := false })
    ∧ (OpenXr.InitLoader env.loader = 0 →
        (OpenXr.InitInstance env.instanceEnv).1 < 0 →
      OpenXr.Init env
        = { code := (OpenXr.InitInstance env.instanceEnv).1, teardown := [],
            eglContextCreated := false })
    ∧ (OpenXr.InitLoader env.loader = 0 →
        (OpenXr.InitInstance env.instanceEnv).1 = 0 →
        OpenXr.InitSystem env.system < 0 →
      OpenXr.Init env
        = { code := OpenXr.InitSystem env.system,
            teardown := [TeardownCall.destroyInstance],
            eglContextCreated := false })
    ∧ (OpenXr.InitLoader env.loader = 0 →
        (OpenXr.InitInstance env.instanceEnv).1 = 0 →
        OpenXr.InitSystem env.system = 0 →
        OpenXr.InitSession env.session < 0 →
      OpenXr.Init env
        = { code := OpenXr.InitSession env.session,
            teardown := [TeardownCall.destroyInstance],
            eglContextCreated := true })
    ∧ (OpenXr.InitLoader env.loader = 0 →
        (OpenXr.InitInstance env.instanceEnv).1 = 0 →
        OpenXr.InitSystem env.system = 0 →
        OpenXr.InitSession env.session = 0 →
        OpenXr.InitViewConfig env.viewConfig < 0 →
      OpenXr.Init env
        = { code := OpenXr.InitViewConfig env.viewConfig,
            teardown := [TeardownCall.destroySession, TeardownCall.destroyInstance],
            eglContextCreated := true })
    ∧ (OpenXr.InitLoader env.loader = 0 →
        (OpenXr.InitInstance env.instanceEnv).1 = 0 →
        OpenXr.InitSystem env.system = 0 →
        OpenXr.InitSession env.session = 0 →
        OpenXr.InitViewConfig env.viewConfig = 0 →
        OpenXr.InitSpaces env.spaces < 0 →
      OpenXr.Init env
        = { code := OpenXr.InitSpaces env.spaces,
            teardown := [TeardownCall.destroySession, TeardownCall.destroyInstance],
            eglContextCreated := true })
    ∧ (OpenXr.InitLoader env.loader = 0 →
        (OpenXr.InitInstance env.instanceEnv).1 = 0 →
        OpenXr.InitSystem env.system = 0 →
        OpenXr.InitSession env.session = 0 →
        OpenXr.InitViewConfig env.viewConfig = 0 →
        OpenXr.InitSpaces env.spaces = 0 →
      OpenXr.Init env
        = { code := 0, teardown := [], eglContextCreated := true }) := by
  refine ⟨?_, ?_, ?_, ?_, ?_, ?_, ?_⟩
  · intro h1
    simp only [OpenXr.Init]
    rw [if_pos h1]
  · intro h1 h2
    simp only [OpenXr.Init]
    rw [if_neg (by omega), if_pos h2]
  · intro h1 h2 h3
    simp only [OpenXr.Init]
    rw [if_neg (by omega), if_neg (by omega), if_pos h3]
  · intro h1 h2 h3 h4
    simp only [OpenXr.Init]
    rw [if_neg (by omega), if_neg (by omega), if_neg (by omega),
        if_neg (by simp), if_pos h4]
  · intro h1 h2 h3 h4 h5
    simp only [OpenXr.Init]
    rw [if_neg (by omega), if_neg (by omega), if_neg (by omega),
        if_neg (by simp), if_neg (by omega), if_pos h5]
  · intro h1 h2 h3 h4 h5 h6
    simp only [OpenXr.Init]
    rw [if_neg (by omega), if_neg (by omega), if_neg (by omega),
        if_neg (by simp), if_neg (by omega), if_neg (by omega), if_pos h6]
  · intro h1 h2 h3 h4 h5 h6
    simp only [OpenXr.Init]
    rw [if_neg (by omega), if_neg (by omega), if_neg (by omega),
        if_neg (by simp), if_neg (by omega), if_neg (by omega),
        if_neg (by omega)]

/-- Witness for (amended) C8: a loader failure returns -1 with no
teardown; a system failure returns -1 after destroying only the
instance; the all-success run returns 0 with the EGL context alive. -/
theorem openXrInit_step_codes_and_teardown_witness :
    OpenXr.Init initEnvLoaderFail
      = { code := -1, teardown := [], eglContextCreated := false }
    ∧ OpenXr.Init initEnvSystemFail
      = { code := -1, teardown := [TeardownCall.destroyInstance],
          eglContextCreated := false }
    ∧ OpenXr.Init initEnvAllOk
      = { code := 0, teardown := [], eglContextCreated := true } := by
  refine ⟨?_, ?_, ?_⟩
  · exact ((openXrInit_step_codes_and_teardown initEnvLoaderFail).1
      (by decide)).trans (by decide)
  · exact ((openXrInit_step_codes_and_teardown initEnvSystemFail).2.2.1
      (by decide) (by decide) (by decide)).trans (by decide)
  · exact (openXrInit_step_codes_and_teardown initEnvAllOk).2.2.2.2.2.2
      (by decide) (by decide) (by decide) (by decide) (by decide) (by decide)
